import Mathlib

/-!
# OpenXR composition layer: lifecycle, registration and fallback policy

A shallow embedding of `modules/openxr/scene/openxr_composition_layer.cpp`.

The node's C++ members become the fields of `Layer`; every member function
becomes a function that takes the state and returns the next one.  Pointers are
`Option`s (`none` is `nullptr`).  The calls the node makes on the compositor
extension and on its layer provider are appended, in order, to `Layer.calls`;
the messages of the `ERR_FAIL_*` macros are appended to `Layer.errors`.
-/

namespace OpenXRCompositionLayer

/-! ## External collaborators -/

/-- A `SubViewport *`; the same number also stands for the viewport's RID. -/
abbrev ViewportId := Nat

/-- The engine's `Size2i`. -/
abbrev Size2i := Int × Int

/-- The enum `SubViewport::UpdateMode`. -/
inductive UpdateMode
  | UPDATE_DISABLED
  | UPDATE_ONCE
  | UPDATE_WHEN_VISIBLE
  | UPDATE_WHEN_PARENT_VISIBLE
  | UPDATE_ALWAYS
  deriving DecidableEq, Repr

/-- What the node reads from, and writes to, a `SubViewport`. -/
structure SubViewport where
  update_mode : UpdateMode
  size : Size2i
  deriving DecidableEq, Repr

/-- The viewports of the scene, by pointer. -/
abbrev Viewports := ViewportId → SubViewport

/-- The call `layer_viewport->set_update_mode(m)` on viewport `v`. -/
def Viewports.set_update_mode (vps : Viewports) (v : ViewportId) (m : UpdateMode) : Viewports :=
  fun u => if u = v then { vps u with update_mode := m } else vps u

/-- The singletons and capabilities a layer sees; none of them changes during
the life of a layer.  `openxr_api` and `composition_layer_extension` say whether
the member pointer of that name is non-null; `is_available` is the answer of
`composition_layer_extension->is_available(openxr_layer_provider->get_openxr_type())`;
`fallback_mesh_is_valid` says whether the mesh built by the subclass's pure
virtual `_create_fallback_mesh()` is a valid reference. -/
structure Env where
  is_editor_hint : Bool
  openxr_api : Bool
  composition_layer_extension : Bool
  is_available : Bool
  fallback_mesh_is_valid : Bool
  deriving DecidableEq, Repr

/-- Value of a C++ `float`: NaN, an infinity, the negative zero, or a finite
number (`fin 0` is the positive zero). -/
inductive real_t
  | nan
  | inf (negative : Bool)
  | neg_zero
  | fin (q : ℚ)
  deriving DecidableEq, Repr

/-- The C++ `==` on floats: NaN is unequal to everything, itself included, and
the two zeros are equal. -/
def real_t.eq : real_t → real_t → Bool
  | .nan, _ => false
  | _, .nan => false
  | .inf a, .inf b => a == b
  | .neg_zero, .neg_zero => true
  | .neg_zero, .fin q => q == 0
  | .fin p, .neg_zero => p == 0
  | .fin p, .fin q => p == q
  | _, _ => false

/-- The engine's `Color`: four float channels. -/
structure Color where
  r : real_t
  g : real_t
  b : real_t
  a : real_t
  deriving DecidableEq, Repr

/-- The operator `Color::operator==`: channel-wise float comparison. -/
def Color.eq (x y : Color) : Bool :=
  x.r.eq y.r && x.g.eq y.g && x.b.eq y.b && x.a.eq y.a

/-- The enum `Filter`. -/
inductive Filter
  | FILTER_NEAREST | FILTER_LINEAR | FILTER_CUBIC
  deriving DecidableEq, Repr

/-- The enum `MipmapMode`. -/
inductive MipmapMode
  | MIPMAP_MODE_DISABLED | MIPMAP_MODE_NEAREST | MIPMAP_MODE_LINEAR
  deriving DecidableEq, Repr

/-- The enum `Wrap`. -/
inductive Wrap
  | WRAP_CLAMP_TO_BORDER | WRAP_CLAMP_TO_EDGE | WRAP_REPEAT | WRAP_MIRRORED_REPEAT
  | WRAP_MIRROR_CLAMP_TO_EDGE
  deriving DecidableEq, Repr

/-- The enum `Swizzle`. -/
inductive Swizzle
  | SWIZZLE_RED | SWIZZLE_GREEN | SWIZZLE_BLUE | SWIZZLE_ALPHA | SWIZZLE_ZERO | SWIZZLE_ONE
  deriving DecidableEq, Repr

/-- The struct behind the `swapchain_state` pointer. -/
structure SwapchainState where
  min_filter : Filter
  mag_filter : Filter
  mipmap_mode : MipmapMode
  horizontal_wrap : Wrap
  vertical_wrap : Wrap
  red_swizzle : Swizzle
  green_swizzle : Swizzle
  blue_swizzle : Swizzle
  alpha_swizzle : Swizzle
  max_anisotropy : real_t
  border_color : Color
  dirty : Bool
  deriving DecidableEq, Repr

/-- A call made by the node on the compositor extension (the first two), on its
own layer provider (the next five), or on its fallback mesh instance
(`fallback->set_mesh(_create_fallback_mesh())`, the last). -/
inductive Call
  | register_viewport_composition_layer_provider
  | unregister_viewport_composition_layer_provider
  | set_viewport (rid : Option ViewportId) (size : Size2i)
  | set_use_android_surface (enable : Bool) (size : Size2i)
  | set_sort_order (order : Int)
  | set_alpha_blend (alpha_blend : Bool)
  | set_extension_property_values
  | fallback_set_mesh
  deriving DecidableEq, Repr

/-- An `ERR_FAIL_*` macro that fired: it prints its message and returns from the
function. -/
inductive Err
  | create_fallback_node_fallback_exists
  | remove_fallback_node_fallback_not_null
  | remove_fallback_node_null_dereference
  | is_viewport_in_use_null_viewport
  | same_subviewport_with_multiple_layers
  | subviewport_with_android_surface
  | reset_fallback_material_null_fallback
  deriving DecidableEq, Repr

/-- The surface override material the node puts on its fallback mesh. -/
inductive Material
  /-- A `ShaderMaterial` whose shader is `HOLE_PUNCH_SHADER_CODE`. -/
  | hole_punch_shader
  /-- A `StandardMaterial3D`. -/
  | standard (unshaded : Bool) (disable_depth_test : Bool) (transparency_alpha : Bool)
      (albedo_texture : Option ViewportId)
  deriving DecidableEq, Repr

/-- The fallback `MeshInstance3D`: whether it has a mesh, and the override
material of surface 0. -/
structure MeshInstance3D where
  has_mesh : Bool
  surface_override_material : Option Material
  deriving DecidableEq, Repr

/-- Modelled from the spec: the layer provider (`OpenXRViewportCompositionLayerProvider`,
declared outside this file) - `set_viewport` binds the handle it is given or, with
a null handle, unbinds; `set_use_android_surface`, `set_sort_order` and
`set_alpha_blend` store what they are given; it owns the swapchain state. -/
structure Provider where
  viewport : Option ViewportId
  viewport_size : Size2i
  use_android_surface : Bool
  android_surface_size : Size2i
  sort_order : Int
  alpha_blend : Bool
  swapchain_state : SwapchainState
  deriving DecidableEq, Repr

/-! ## The node -/

/-- The members of `OpenXRCompositionLayer`, the two `Node3D` flags it queries
(`is_visible()`, `is_inside_tree()`), its provider, and the two traces. -/
structure Layer where
  layer_viewport : Option ViewportId
  use_android_surface : Bool
  android_surface_size : Size2i
  enable_hole_punch : Bool
  registered : Bool
  openxr_session_running : Bool
  fallback : Option MeshInstance3D
  should_update_fallback_mesh : Bool
  visible : Bool
  inside_tree : Bool
  openxr_layer_provider : Provider
  calls : List Call
  errors : List Err
  deriving DecidableEq, Repr

/-- A layer and the viewports of the scene. -/
structure World where
  layer : Layer
  viewports : Viewports

/-- Record a call on the extension or the provider. -/
def Layer.call (s : Layer) (c : Call) : Layer :=
  { s with calls := s.calls ++ [c] }

/-- Record a fired `ERR_FAIL_*`. -/
def Layer.fail (s : Layer) (e : Err) : Layer :=
  { s with errors := s.errors ++ [e] }

/-- The call `openxr_layer_provider->set_viewport(rid, size)`. -/
def provider_set_viewport (s : Layer) (rid : Option ViewportId) (size : Size2i) : Layer :=
  { (s.call (.set_viewport rid size)) with
    openxr_layer_provider :=
      { s.openxr_layer_provider with viewport := rid, viewport_size := size } }

/-- The call `openxr_layer_provider->set_use_android_surface(enable, size)`. -/
def provider_set_use_android_surface (s : Layer) (enable : Bool) (size : Size2i) : Layer :=
  { (s.call (.set_use_android_surface enable size)) with
    openxr_layer_provider :=
      { s.openxr_layer_provider with use_android_surface := enable, android_surface_size := size } }

/-- The function `OpenXRCompositionLayer::is_natively_supported`. -/
def is_natively_supported (env : Env) : Bool :=
  if env.composition_layer_extension && env.openxr_api then
    env.is_available
  else
    false

/-- The function `OpenXRCompositionLayer::_should_use_fallback_node`. -/
def _should_use_fallback_node (env : Env) (s : Layer) : Bool :=
  if env.is_editor_hint || !env.openxr_api then
    true
  else if s.openxr_session_running then
    s.enable_hole_punch || (!is_natively_supported env && !s.use_android_surface)
  else
    false

/-- The function `OpenXRCompositionLayer::_create_fallback_node`: a new
`MeshInstance3D` has no mesh and no override material. -/
def _create_fallback_node (s : Layer) : Layer :=
  if s.fallback.isSome then
    s.fail .create_fallback_node_fallback_exists
  else
    { s with
      fallback := some { has_mesh := false, surface_override_material := none },
      should_update_fallback_mesh := true }

/-- The function `OpenXRCompositionLayer::_remove_fallback_node`.  Its guard is
`ERR_FAIL_COND(fallback != nullptr)`, so with a fallback it prints the error and
returns.  Without one the body would go on to `fallback->queue_free()` on a null
pointer; no caller in the file reaches that, and it is recorded as an error. -/
def _remove_fallback_node (s : Layer) : Layer :=
  if s.fallback.isSome then
    s.fail .remove_fallback_node_fallback_not_null
  else
    s.fail .remove_fallback_node_null_dereference

/-- The function `OpenXRCompositionLayer::_setup_composition_layer_provider`. -/
def _setup_composition_layer_provider (env : Env) (vps : Viewports) (s : Layer) : Layer :=
  if s.use_android_surface || s.layer_viewport.isSome then
    let s1 :=
      if env.composition_layer_extension then
        { (s.call .register_viewport_composition_layer_provider) with registered := true }
      else s
    match s1.layer_viewport with
    | some v => provider_set_viewport s1 (some v) (vps v).size
    | none => s1
  else
    s

/-- The function `OpenXRCompositionLayer::_clear_composition_layer_provider`. -/
def _clear_composition_layer_provider (env : Env) (s : Layer) : Layer :=
  let s1 :=
    if env.composition_layer_extension then
      { (s.call .unregister_viewport_composition_layer_provider) with registered := false }
    else s
  if !s1.use_android_surface then
    provider_set_viewport s1 none (0, 0)
  else
    s1

/-- The function `OpenXRCompositionLayer::_reset_fallback_material`.  The casts
`Ref<ShaderMaterial> material = ...` and `Ref<StandardMaterial3D> material = ...`
give null when the current override material is of the other class. -/
def _reset_fallback_material (env : Env) (s : Layer) : Layer :=
  match s.fallback with
  | none => s.fail .reset_fallback_material_null_fallback
  | some fb =>
    if !fb.has_mesh then
      s
    else if s.enable_hole_punch && !env.is_editor_hint && is_natively_supported env then
      match fb.surface_override_material with
      | some .hole_punch_shader => s
      | _ => { s with fallback := some { fb with surface_override_material := some .hole_punch_shader } }
    else
      match s.layer_viewport with
      | some v =>
        let unshaded : Bool :=
          match fb.surface_override_material with
          | some (.standard u _ _ _) => u
          | _ => true
        let material : Material :=
          .standard unshaded (!s.enable_hole_punch) s.openxr_layer_provider.alpha_blend (some v)
        { s with fallback := some { fb with surface_override_material := some material } }
      | none => { s with fallback := some { fb with surface_override_material := none } }

/-- The function `OpenXRCompositionLayer::_on_openxr_session_begun`. -/
def _on_openxr_session_begun (env : Env) (vps : Viewports) (s : Layer) : Layer :=
  let s1 := { s with openxr_session_running := true }
  let s2 :=
    if is_natively_supported env && s1.visible && s1.inside_tree then
      _setup_composition_layer_provider env vps s1
    else s1
  if !s2.fallback.isSome && _should_use_fallback_node env s2 then
    _create_fallback_node s2
  else
    s2

/-- The function `OpenXRCompositionLayer::_on_openxr_session_stopping`. -/
def _on_openxr_session_stopping (env : Env) (s : Layer) : Layer :=
  let s1 := { s with openxr_session_running := false }
  let s2 :=
    if s1.fallback.isSome && !_should_use_fallback_node env s1 then
      _remove_fallback_node s1
    else s1
  _clear_composition_layer_provider env s2

/-- The function `OpenXRCompositionLayer::update_fallback_mesh`. -/
def update_fallback_mesh (s : Layer) : Layer :=
  { s with should_update_fallback_mesh := true }

/-- The function `OpenXRCompositionLayer::is_viewport_in_use` for a non-null
argument.  `others` are the entries of `composition_layer_nodes` other than
`this`, which the loop skips. -/
def is_viewport_in_use (others : List Layer) (p_viewport : ViewportId) : Bool :=
  others.any fun other => other.inside_tree && other.layer_viewport == some p_viewport

/-- The function `OpenXRCompositionLayer::set_layer_viewport`.  The one-time
`WARN_PRINT_ONCE` is not recorded. -/
def set_layer_viewport (env : Env) (others : List Layer) (vps : Viewports) (s : Layer)
    (p_viewport : Option ViewportId) : Layer × Viewports :=
  if s.layer_viewport = p_viewport then
    (s, vps)
  else if (match p_viewport with
      | some v => is_viewport_in_use others v
      | none => false) then
    (s.fail .same_subviewport_with_multiple_layers, vps)
  else if s.use_android_surface && p_viewport.isSome then
    (s.fail .subviewport_with_android_surface, vps)
  else
    let s1 := { s with layer_viewport := p_viewport }
    let s2 :=
      if !s1.registered && is_natively_supported env && s1.openxr_session_running
          && s1.inside_tree && s1.visible then
        _setup_composition_layer_provider env vps s1
      else s1
    let vps2 :=
      match s2.layer_viewport with
      | some v =>
        if (vps v).update_mode = .UPDATE_WHEN_VISIBLE
            ∨ (vps v).update_mode = .UPDATE_WHEN_PARENT_VISIBLE then
          vps.set_update_mode v .UPDATE_ALWAYS
        else vps
      | none => vps
    let s3 :=
      if s2.fallback.isSome then
        _reset_fallback_material env s2
      else if s2.openxr_session_running && s2.visible && s2.inside_tree then
        match s2.layer_viewport with
        | some v => provider_set_viewport s2 (some v) (vps2 v).size
        | none => provider_set_viewport s2 none (0, 0)
      else s2
    (s3, vps2)

/-- The function `OpenXRCompositionLayer::set_use_android_surface`. -/
def set_use_android_surface (env : Env) (others : List Layer) (vps : Viewports) (s : Layer)
    (p_use_android_surface : Bool) : Layer × Viewports :=
  if s.use_android_surface = p_use_android_surface then
    (s, vps)
  else
    let s1 := { s with use_android_surface := p_use_android_surface }
    if s1.use_android_surface then
      let r := set_layer_viewport env others vps s1 none
      (provider_set_use_android_surface r.1 true r.1.android_surface_size, r.2)
    else
      (provider_set_use_android_surface s1 false (0, 0), vps)

/-- The function `OpenXRCompositionLayer::set_android_surface_size`. -/
def set_android_surface_size (s : Layer) (p_size : Size2i) : Layer :=
  if s.android_surface_size = p_size then
    s
  else
    let s1 := { s with android_surface_size := p_size }
    if s1.use_android_surface then
      provider_set_use_android_surface s1 true s1.android_surface_size
    else s1

/-- The function `OpenXRCompositionLayer::set_enable_hole_punch`. -/
def set_enable_hole_punch (env : Env) (s : Layer) (p_enable : Bool) : Layer :=
  if s.enable_hole_punch = p_enable then
    s
  else
    let s1 := { s with enable_hole_punch := p_enable }
    if _should_use_fallback_node env s1 then
      if s1.fallback.isSome then
        _reset_fallback_material env s1
      else
        _create_fallback_node s1
    else if s1.fallback.isSome then
      _remove_fallback_node s1
    else s1

/-- The function `OpenXRCompositionLayer::set_sort_order`. -/
def set_sort_order (s : Layer) (p_order : Int) : Layer :=
  { (s.call (.set_sort_order p_order)) with
    openxr_layer_provider := { s.openxr_layer_provider with sort_order := p_order } }

/-- The function `OpenXRCompositionLayer::get_sort_order`. -/
def get_sort_order (s : Layer) : Int :=
  s.openxr_layer_provider.sort_order

/-- The function `OpenXRCompositionLayer::get_alpha_blend`. -/
def get_alpha_blend (s : Layer) : Bool :=
  s.openxr_layer_provider.alpha_blend

/-- The function `OpenXRCompositionLayer::set_alpha_blend`. -/
def set_alpha_blend (env : Env) (s : Layer) (p_alpha_blend : Bool) : Layer :=
  let s1 : Layer :=
    { (s.call (.set_alpha_blend p_alpha_blend)) with
      openxr_layer_provider := { s.openxr_layer_provider with alpha_blend := p_alpha_blend } }
  if s1.fallback.isSome then
    _reset_fallback_material env s1
  else s1

/-! ## Swapchain state setters -/

/-- The function `OpenXRCompositionLayer::set_min_filter`, on the pointee of `swapchain_state`. -/
def set_min_filter (st : SwapchainState) (p_mode : Filter) : SwapchainState :=
  if st.min_filter = p_mode then st else { st with min_filter := p_mode, dirty := true }

/-- The function `OpenXRCompositionLayer::set_mag_filter`. -/
def set_mag_filter (st : SwapchainState) (p_mode : Filter) : SwapchainState :=
  if st.mag_filter = p_mode then st else { st with mag_filter := p_mode, dirty := true }

/-- The function `OpenXRCompositionLayer::set_mipmap_mode`. -/
def set_mipmap_mode (st : SwapchainState) (p_mode : MipmapMode) : SwapchainState :=
  if st.mipmap_mode = p_mode then st else { st with mipmap_mode := p_mode, dirty := true }

/-- The function `OpenXRCompositionLayer::set_horizontal_wrap`. -/
def set_horizontal_wrap (st : SwapchainState) (p_mode : Wrap) : SwapchainState :=
  if st.horizontal_wrap = p_mode then st else { st with horizontal_wrap := p_mode, dirty := true }

/-- The function `OpenXRCompositionLayer::set_vertical_wrap`. -/
def set_vertical_wrap (st : SwapchainState) (p_mode : Wrap) : SwapchainState :=
  if st.vertical_wrap = p_mode then st else { st with vertical_wrap := p_mode, dirty := true }

/-- The function `OpenXRCompositionLayer::set_red_swizzle`. -/
def set_red_swizzle (st : SwapchainState) (p_mode : Swizzle) : SwapchainState :=
  if st.red_swizzle = p_mode then st else { st with red_swizzle := p_mode, dirty := true }

/-- The function `OpenXRCompositionLayer::set_green_swizzle`. -/
def set_green_swizzle (st : SwapchainState) (p_mode : Swizzle) : SwapchainState :=
  if st.green_swizzle = p_mode then st else { st with green_swizzle := p_mode, dirty := true }

/-- The function `OpenXRCompositionLayer::set_blue_swizzle`. -/
def set_blue_swizzle (st : SwapchainState) (p_mode : Swizzle) : SwapchainState :=
  if st.blue_swizzle = p_mode then st else { st with blue_swizzle := p_mode, dirty := true }

/-- The function `OpenXRCompositionLayer::set_alpha_swizzle`. -/
def set_alpha_swizzle (st : SwapchainState) (p_mode : Swizzle) : SwapchainState :=
  if st.alpha_swizzle = p_mode then st else { st with alpha_swizzle := p_mode, dirty := true }

/-- The function `OpenXRCompositionLayer::set_max_anisotropy`. -/
def set_max_anisotropy (st : SwapchainState) (p_value : real_t) : SwapchainState :=
  if st.max_anisotropy.eq p_value then st else { st with max_anisotropy := p_value, dirty := true }

/-- The function `OpenXRCompositionLayer::set_border_color`. -/
def set_border_color (st : SwapchainState) (p_color : Color) : SwapchainState :=
  if st.border_color.eq p_color then st else { st with border_color := p_color, dirty := true }

/-- The function `OpenXRCompositionLayer::get_min_filter`. -/
def get_min_filter (st : SwapchainState) : Filter := st.min_filter

/-- The function `OpenXRCompositionLayer::get_mag_filter`. -/
def get_mag_filter (st : SwapchainState) : Filter := st.mag_filter

/-- The function `OpenXRCompositionLayer::get_mipmap_mode`. -/
def get_mipmap_mode (st : SwapchainState) : MipmapMode := st.mipmap_mode

/-- The function `OpenXRCompositionLayer::get_horizontal_wrap`. -/
def get_horizontal_wrap (st : SwapchainState) : Wrap := st.horizontal_wrap

/-- The function `OpenXRCompositionLayer::get_vertical_wrap`. -/
def get_vertical_wrap (st : SwapchainState) : Wrap := st.vertical_wrap

/-- The function `OpenXRCompositionLayer::get_red_swizzle`. -/
def get_red_swizzle (st : SwapchainState) : Swizzle := st.red_swizzle

/-- The function `OpenXRCompositionLayer::get_green_swizzle`. -/
def get_green_swizzle (st : SwapchainState) : Swizzle := st.green_swizzle

/-- The function `OpenXRCompositionLayer::get_blue_swizzle`. -/
def get_blue_swizzle (st : SwapchainState) : Swizzle := st.blue_swizzle

/-- The function `OpenXRCompositionLayer::get_alpha_swizzle`. -/
def get_alpha_swizzle (st : SwapchainState) : Swizzle := st.alpha_swizzle

/-- The function `OpenXRCompositionLayer::get_max_anisotropy`. -/
def get_max_anisotropy (st : SwapchainState) : real_t := st.max_anisotropy

/-- The function `OpenXRCompositionLayer::get_border_color`. -/
def get_border_color (st : SwapchainState) : Color := st.border_color

/-- One call of a swapchain-state setter, with its argument. -/
inductive SwapchainSetter
  | min_filter (p_mode : Filter)
  | mag_filter (p_mode : Filter)
  | mipmap_mode (p_mode : MipmapMode)
  | horizontal_wrap (p_mode : Wrap)
  | vertical_wrap (p_mode : Wrap)
  | red_swizzle (p_mode : Swizzle)
  | green_swizzle (p_mode : Swizzle)
  | blue_swizzle (p_mode : Swizzle)
  | alpha_swizzle (p_mode : Swizzle)
  | max_anisotropy (p_value : real_t)
  | border_color (p_color : Color)
  deriving DecidableEq, Repr

/-- Run the setter named by `c`. -/
def SwapchainSetter.apply (c : SwapchainSetter) (st : SwapchainState) : SwapchainState :=
  match c with
  | .min_filter m => set_min_filter st m
  | .mag_filter m => set_mag_filter st m
  | .mipmap_mode m => set_mipmap_mode st m
  | .horizontal_wrap m => set_horizontal_wrap st m
  | .vertical_wrap m => set_vertical_wrap st m
  | .red_swizzle m => set_red_swizzle st m
  | .green_swizzle m => set_green_swizzle st m
  | .blue_swizzle m => set_blue_swizzle st m
  | .alpha_swizzle m => set_alpha_swizzle st m
  | .max_anisotropy x => set_max_anisotropy st x
  | .border_color c => set_border_color st c

/-- A swapchain setter called on the node: it writes through `swapchain_state`,
which points into the provider. -/
def set_swapchain_state (s : Layer) (c : SwapchainSetter) : Layer :=
  { s with openxr_layer_provider :=
      { s.openxr_layer_provider with
        swapchain_state := c.apply s.openxr_layer_provider.swapchain_state } }

/-! ## Notifications -/

/-- The notification codes `_notification` switches on; `OTHER` is any other code. -/
inductive Notification
  | NOTIFICATION_POSTINITIALIZE
  | NOTIFICATION_INTERNAL_PROCESS
  | NOTIFICATION_VISIBILITY_CHANGED
  | NOTIFICATION_LOCAL_TRANSFORM_CHANGED
  | NOTIFICATION_ENTER_TREE
  | NOTIFICATION_EXIT_TREE
  | OTHER
  deriving DecidableEq, Repr

/-- The function `OpenXRCompositionLayer::_notification`.  The registry
`composition_layer_nodes` is the caller's `others` plus this node, and the
extension property bag is left out, so `NOTIFICATION_POSTINITIALIZE` only shows
as the call that forwards the bag to the provider.  `set_mesh` keeps the
override material slot. -/
def _notification (env : Env) (others : List Layer) (vps : Viewports) (s : Layer)
    (p_what : Notification) : Layer :=
  match p_what with
  | .NOTIFICATION_POSTINITIALIZE => s.call .set_extension_property_values
  | .NOTIFICATION_INTERNAL_PROCESS =>
    match s.fallback with
    | some fb =>
      if s.should_update_fallback_mesh then
        let s0 := s.call .fallback_set_mesh
        let s1 := { s0 with fallback := some { fb with has_mesh := env.fallback_mesh_is_valid } }
        let s2 := _reset_fallback_material env s1
        { s2 with should_update_fallback_mesh := false }
      else s
    | none => s
  | .NOTIFICATION_VISIBILITY_CHANGED =>
    if is_natively_supported env && s.openxr_session_running && s.inside_tree then
      if s.visible then
        _setup_composition_layer_provider env vps s
      else
        _clear_composition_layer_provider env s
    else s
  | .NOTIFICATION_LOCAL_TRANSFORM_CHANGED => s
  | .NOTIFICATION_ENTER_TREE =>
    if (match s.layer_viewport with
        | some v => is_viewport_in_use others v
        | none => false) then
      _clear_composition_layer_provider env s
    else if s.openxr_session_running && s.visible then
      _setup_composition_layer_provider env vps s
    else s
  | .NOTIFICATION_EXIT_TREE => _clear_composition_layer_provider env s
  | .OTHER => s

/-- The constructor `OpenXRCompositionLayer::OpenXRCompositionLayer`.  `is_running`
is the answer of `openxr_api->is_running()`; the initial android surface size and
the freshly allocated provider come from declarations outside this file and are
arguments.  A new `Node3D` is visible and outside the tree. -/
def construct (env : Env) (is_running : Bool) (android_surface_size : Size2i)
    (provider : Provider) : Layer :=
  let s : Layer :=
    { layer_viewport := none
      use_android_surface := false
      android_surface_size := android_surface_size
      enable_hole_punch := false
      registered := false
      openxr_session_running := if env.openxr_api then is_running else false
      fallback := none
      should_update_fallback_mesh := false
      visible := true
      inside_tree := false
      openxr_layer_provider := provider
      calls := []
      errors := [] }
  if env.is_editor_hint then _create_fallback_node s else s

/-! ## Events -/

/-- Modelled from the spec: the scene graph and the XR session object, which are
outside this file, deliver tree-attach/detach and visibility-change
notifications and the `session_begun` / `session_stopping` signals.  A node is
inside the tree while it handles `NOTIFICATION_ENTER_TREE` and
`NOTIFICATION_EXIT_TREE` and outside once the latter has returned;
`set_visible` stores the flag and then notifies.  The other events are the
node's public setters and the per-frame tick. -/
inductive Event
  | session_begun
  | session_stopping
  | postinitialized
  | internal_process
  | local_transform_changed
  | enter_tree
  | exit_tree
  | set_visible (visible : Bool)
  | set_layer_viewport (p_viewport : Option ViewportId)
  | set_use_android_surface (p_use_android_surface : Bool)
  | set_android_surface_size (p_size : Size2i)
  | set_enable_hole_punch (p_enable : Bool)
  | set_sort_order (p_order : Int)
  | set_alpha_blend (p_alpha_blend : Bool)
  | update_fallback_mesh
  | set_swapchain_state (c : SwapchainSetter)
  deriving DecidableEq, Repr

/-- Deliver one event to the layer of `w`; `others` are the other live layers
at that moment. -/
def step (env : Env) (others : List Layer) (w : World) : Event → World
  | .session_begun => ⟨_on_openxr_session_begun env w.viewports w.layer, w.viewports⟩
  | .session_stopping => ⟨_on_openxr_session_stopping env w.layer, w.viewports⟩
  | .postinitialized =>
    ⟨_notification env others w.viewports w.layer .NOTIFICATION_POSTINITIALIZE, w.viewports⟩
  | .internal_process =>
    ⟨_notification env others w.viewports w.layer .NOTIFICATION_INTERNAL_PROCESS, w.viewports⟩
  | .local_transform_changed =>
    ⟨_notification env others w.viewports w.layer .NOTIFICATION_LOCAL_TRANSFORM_CHANGED,
      w.viewports⟩
  | .enter_tree =>
    let s : Layer := { w.layer with inside_tree := true }
    ⟨_notification env others w.viewports s .NOTIFICATION_ENTER_TREE, w.viewports⟩
  | .exit_tree =>
    let s : Layer := _notification env others w.viewports w.layer .NOTIFICATION_EXIT_TREE
    ⟨{ s with inside_tree := false }, w.viewports⟩
  | .set_visible v =>
    let s : Layer := { w.layer with visible := v }
    ⟨_notification env others w.viewports s .NOTIFICATION_VISIBILITY_CHANGED, w.viewports⟩
  | .set_layer_viewport p =>
    let r := set_layer_viewport env others w.viewports w.layer p
    ⟨r.1, r.2⟩
  | .set_use_android_surface b =>
    let r := set_use_android_surface env others w.viewports w.layer b
    ⟨r.1, r.2⟩
  | .set_android_surface_size sz => ⟨set_android_surface_size w.layer sz, w.viewports⟩
  | .set_enable_hole_punch b => ⟨set_enable_hole_punch env w.layer b, w.viewports⟩
  | .set_sort_order n => ⟨set_sort_order w.layer n, w.viewports⟩
  | .set_alpha_blend b => ⟨set_alpha_blend env w.layer b, w.viewports⟩
  | .update_fallback_mesh => ⟨update_fallback_mesh w.layer, w.viewports⟩
  | .set_swapchain_state c => ⟨set_swapchain_state w.layer c, w.viewports⟩

/-- Deliver a sequence of events, each with the other live layers of its moment. -/
def run (env : Env) (w : World) : List (List Layer × Event) → World
  | [] => w
  | (others, e) :: rest => run env (step env others w e) rest

/-- Two live layers and the viewports of the scene. -/
structure World2 where
  a : Layer
  b : Layer
  viewports : Viewports

/-- Which of the two layers an event goes to. -/
inductive Target
  | A
  | B
  deriving DecidableEq, Repr

/-- Deliver one event to one of two layers; the other one is the rest of
`composition_layer_nodes`. -/
def step2 (envA envB : Env) (w : World2) : Target × Event → World2
  | (.A, e) =>
    let r := step envA [w.b] ⟨w.a, w.viewports⟩ e
    { w with a := r.layer, viewports := r.viewports }
  | (.B, e) =>
    let r := step envB [w.a] ⟨w.b, w.viewports⟩ e
    { w with b := r.layer, viewports := r.viewports }

/-- Deliver a sequence of events to two layers. -/
def run2 (envA envB : Env) (w : World2) : List (Target × Event) → World2
  | [] => w
  | te :: rest => run2 envA envB (step2 envA envB w te) rest

/-- The events of a viewport-binding scenario: `set_layer_viewport` calls and
tree enter/exit. -/
def Event.is_viewport_or_tree : Event → Bool
  | .set_layer_viewport _ => true
  | .enter_tree => true
  | .exit_tree => true
  | _ => false

/-- How many times the node asked the extension to register its provider. -/
def register_calls (s : Layer) : Nat :=
  s.calls.count .register_viewport_composition_layer_provider

/-- How many times the node asked the extension to unregister its provider. -/
def unregister_calls (s : Layer) : Nat :=
  s.calls.count .unregister_viewport_composition_layer_provider

/-! ## Sample data for the concrete evaluations -/

/-- A swapchain state with the first value of every enum. -/
def swapchain_state0 : SwapchainState :=
  { min_filter := .FILTER_NEAREST
    mag_filter := .FILTER_NEAREST
    mipmap_mode := .MIPMAP_MODE_DISABLED
    horizontal_wrap := .WRAP_CLAMP_TO_BORDER
    vertical_wrap := .WRAP_CLAMP_TO_BORDER
    red_swizzle := .SWIZZLE_RED
    green_swizzle := .SWIZZLE_GREEN
    blue_swizzle := .SWIZZLE_BLUE
    alpha_swizzle := .SWIZZLE_ALPHA
    max_anisotropy := .fin 1
    border_color := ⟨.fin 0, .fin 0, .fin 0, .fin 0⟩
    dirty := false }

/-- A provider with nothing bound. -/
def provider0 : Provider :=
  { viewport := none
    viewport_size := (0, 0)
    use_android_surface := false
    android_surface_size := (0, 0)
    sort_order := 1
    alpha_blend := false
    swapchain_state := swapchain_state0 }

/-- Viewports of 512 by 512 that always update. -/
def viewports0 : Viewports :=
  fun _ => { update_mode := .UPDATE_ALWAYS, size := (512, 512) }

/-- A running game with the runtime, the extension and the layer type all there. -/
def env_native : Env :=
  { is_editor_hint := false
    openxr_api := true
    composition_layer_extension := true
    is_available := true
    fallback_mesh_is_valid := true }

/-- A running game whose runtime does not offer the layer type. -/
def env_unsupported : Env :=
  { env_native with is_available := false }

/-- A running game without XR runtime; the extension singleton exists. -/
def env_no_runtime : Env :=
  { env_native with openxr_api := false }

/-- A fresh layer of a game whose session is not running yet. -/
def layer0 (env : Env) : Layer :=
  construct env false (1024, 1024) provider0

/-- The editor, with runtime and extension present. -/
def env_editor : Env :=
  { env_native with is_editor_hint := true }

/-- A fresh layer created while the session is already running. -/
def layer0_running (env : Env) : Layer :=
  construct env true (1024, 1024) provider0

/-- A layer outside the tree that holds viewport 1. -/
def layer_holding_1 : Layer :=
  (set_layer_viewport env_native [] viewports0 (layer0 env_native) (some 1)).1

/-- A layer inside the tree that holds viewport 1. -/
def layer_holding_1_in_tree : Layer :=
  { layer_holding_1 with inside_tree := true }

/-- A visible layer of a running session that is inside the tree and holds viewport 1. -/
def layer_bound_in_tree : Layer :=
  (run env_native ⟨layer0_running env_native, viewports0⟩
    [([], .set_layer_viewport (some 1)), ([], .enter_tree)]).layer

/-- A running game with the runtime but without the compositor extension singleton. -/
def env_no_extension : Env :=
  { env_native with composition_layer_extension := false }

/-- A layer that has just entered the tree: visible, session not running, nothing bound. -/
def layer_entered (env : Env) : Layer :=
  (step env [] ⟨layer0 env, viewports0⟩ .enter_tree).layer

/-- A layer outside the tree of a running session that holds viewport 1. -/
def layer_running_holding_1 : Layer :=
  (set_layer_viewport env_native [] viewports0 (layer0_running env_native) (some 1)).1

/-- A layer with hole punch on whose session has begun: it has a fallback. -/
def layer_hole_punch_running : Layer :=
  (run env_native ⟨layer0 env_native, viewports0⟩
    [([], .set_enable_hole_punch true), ([], .session_begun)]).layer

/-- A layer of an unsupported type with a fallback mesh and viewport 1 bound. -/
def layer_fallback_with_mesh : Layer :=
  (run env_unsupported ⟨layer0 env_unsupported, viewports0⟩
    [([], .session_begun), ([], .internal_process), ([], .set_layer_viewport (some 1))]).layer

/-- Viewports that update only when visible. -/
def viewports_when_visible : Viewports :=
  fun _ => { update_mode := .UPDATE_WHEN_VISIBLE, size := (512, 512) }

/-- A swapchain state that holds NaN as max anisotropy. -/
def swapchain_state_nan : SwapchainState :=
  { swapchain_state0 with max_anisotropy := .nan }

/-! ## Predicates used by the invariants -/

/-- No viewport is bound while the android surface is in use. -/
def android_excludes_viewport (s : Layer) : Prop :=
  s.use_android_surface = true → s.layer_viewport = none

/-- A registered layer is inside the tree and has the extension. -/
def registered_in_tree (env : Env) (s : Layer) : Prop :=
  s.registered = true → s.inside_tree = true ∧ env.composition_layer_extension = true

/-- Both layers are registered and hold the same non-null viewport. -/
def both_registered_same_viewport (x y : Layer) : Prop :=
  x.registered = true ∧ y.registered = true ∧ x.layer_viewport = y.layer_viewport
    ∧ x.layer_viewport ≠ none

/-- The viewport of the layer is held by another layer inside the tree: the
condition of the conflict guard of `NOTIFICATION_ENTER_TREE`. -/
def bound_viewport_in_use (others : List Layer) (s : Layer) : Bool :=
  match s.layer_viewport with
  | some v => is_viewport_in_use others v
  | none => false

/-- Every event of the sequence is a `set_layer_viewport` call or a tree enter/exit. -/
def all_viewport_or_tree (tr : List (Target × Event)) : Bool :=
  tr.all fun te => te.2.is_viewport_or_tree

/-- A registered layer is visible, inside the tree, and its session runs. -/
def registered_is_active (s : Layer) : Prop :=
  s.registered = true →
    s.visible = true ∧ s.inside_tree = true ∧ s.openxr_session_running = true

/-- What the induction over two layers carries. -/
def two_layer_invariant (envA envB : Env) (w : World2) : Prop :=
  registered_in_tree envA w.a ∧ registered_in_tree envB w.b
    ∧ ¬ both_registered_same_viewport w.a w.b

/-! ## Mesh rebuilds, property list and configuration warnings -/

/-- How many times the node rebuilt the fallback mesh. -/
def mesh_builds (s : Layer) : Nat :=
  s.calls.count .fallback_set_mesh

/-- A run of `n` calls of `update_fallback_mesh`. -/
def update_fallback_mesh_calls (n : Nat) : List (List Layer × Event) :=
  List.replicate n ([], Event.update_fallback_mesh)

/-- The members of the engine's `PropertyInfo`; `_get_property_list` reads the name. -/
structure PropertyInfo where
  name : String
  type : Nat
  hint : Nat
  hint_string : String
  usage : Nat
  deriving DecidableEq, Repr

/-- The engine's `String::contains_char`. -/
def contains_char (s : String) (c : Char) : Bool :=
  s.toList.contains c

/-- The second loop of `OpenXRCompositionLayer::_get_property_list`, over
`extension_properties`: a name without the separator is skipped with `continue`, any
other descriptor is pushed onto `p_property_list`. -/
def _get_property_list_loop : List PropertyInfo → List PropertyInfo → List PropertyInfo
  | p_property_list, [] => p_property_list
  | p_property_list, pinfo :: rest =>
    if !contains_char pinfo.name '/' then
      _get_property_list_loop p_property_list rest
    else
      _get_property_list_loop (p_property_list ++ [pinfo]) rest

/-- The function `OpenXRCompositionLayer::_get_property_list`.  `wrappers` holds, for
each registered extension wrapper in turn, the descriptors that its
`get_viewport_composition_layer_extension_properties` appends to the list it is handed. -/
def _get_property_list (wrappers : List (List PropertyInfo))
    (p_property_list : List PropertyInfo) : List PropertyInfo :=
  let extension_properties : List PropertyInfo := wrappers.foldl (fun acc w => acc ++ w) []
  _get_property_list_loop p_property_list extension_properties

/-- An entry of the array returned by `get_configuration_warnings`: a warning of the
base class `Node3D`, or one of the three messages of this node ("OpenXR composition
layers must have an XROrigin3D node as their parent.", "OpenXR composition layers
must have orthonormalized transforms (ie. no scale or shearing).", "Hole punching
won't work as expected unless the sort order is less than zero."). -/
inductive ConfigurationWarning
  | inherited (text : String)
  | must_have_xr_origin_parent
  | must_have_orthonormalized_transform
  | hole_punch_needs_negative_sort_order
  deriving DecidableEq, Repr

/-- The function `OpenXRCompositionLayer::get_configuration_warnings`.  `inherited` is
the answer of `Node3D::get_configuration_warnings()`, `parent_is_xr_origin` says
whether `Object::cast_to<XROrigin3D>(get_parent())` is non-null, and
`basis_is_orthonormal` is the answer of `get_transform().basis.is_orthonormal()`. -/
def get_configuration_warnings (s : Layer) (inherited : List String)
    (parent_is_xr_origin basis_is_orthonormal : Bool) : List ConfigurationWarning :=
  let warnings0 : List ConfigurationWarning := inherited.map .inherited
  let warnings1 :=
    if s.visible && s.inside_tree then
      if !parent_is_xr_origin then warnings0 ++ [.must_have_xr_origin_parent] else warnings0
    else warnings0
  let warnings2 :=
    if !basis_is_orthonormal then warnings1 ++ [.must_have_orthonormalized_transform]
    else warnings1
  let warnings3 :=
    if s.enable_hole_punch && decide (get_sort_order s ≥ 0) then
      warnings2 ++ [.hole_punch_needs_negative_sort_order]
    else warnings2
  warnings3

/-- The C++ `<` on floats: false whenever an operand is NaN; the two zeros are equal. -/
def real_t.lt : real_t → real_t → Bool
  | .nan, _ => false
  | _, .nan => false
  | .inf a, .inf b => a && !b
  | .inf a, _ => a
  | _, .inf b => !b
  | .neg_zero, .neg_zero => false
  | .neg_zero, .fin q => decide (0 < q)
  | .fin p, .neg_zero => decide (p < 0)
  | .fin p, .fin q => decide (p < q)

/-- Some descriptors for the concrete evaluations. -/
def property_with_separator : PropertyInfo :=
  { name := "ext/scale", type := 3, hint := 0, hint_string := "", usage := 6 }

/-- A descriptor whose name lacks the separator. -/
def property_without_separator : PropertyInfo :=
  { name := "scale", type := 3, hint := 0, hint_string := "", usage := 6 }

/-- Another well-named descriptor. -/
def property_with_separator_2 : PropertyInfo :=
  { name := "ext/offset", type := 5, hint := 0, hint_string := "", usage := 6 }

end OpenXRCompositionLayer

/-! # Sphere collision shape (`scene/resources/3d/sphere_shape_3d.cpp`) -/

namespace SphereShape3D

open OpenXRCompositionLayer (real_t)

/-- A call the shape makes: on the physics server, on its base class, or the
`changed` signal. -/
inductive Call
  | shape_set_data (radius : real_t)
  | shape3d_update_shape
  | emit_changed
  deriving DecidableEq, Repr

/-- The member `radius`, the calls made so far, and how many times `ERR_FAIL_COND_MSG`
fired. -/
structure Shape where
  radius : real_t
  calls : List Call
  errors : Nat
  deriving DecidableEq, Repr

/-- The function `SphereShape3D::_update_shape`. -/
def _update_shape (s : Shape) : Shape :=
  { s with calls := s.calls ++ [.shape_set_data s.radius, .shape3d_update_shape] }

/-- The function `SphereShape3D::set_radius`. -/
def set_radius (s : Shape) (p_radius : real_t) : Shape :=
  if p_radius.lt (.fin 0) then
    { s with errors := s.errors + 1 }
  else
    let s1 := { s with radius := p_radius }
    let s2 := _update_shape s1
    { s2 with calls := s2.calls ++ [.emit_changed] }

/-- The function `SphereShape3D::get_radius`. -/
def get_radius (s : Shape) : real_t :=
  s.radius

/-- The constructor `SphereShape3D::SphereShape3D`; `radius0` is the member's
initialiser, which is declared outside this file. -/
def construct (radius0 : real_t) : Shape :=
  set_radius { radius := radius0, calls := [], errors := 0 } (.fin (1 / 2))

/-- A sequence of `set_radius` calls. -/
def run (s : Shape) : List real_t → Shape
  | [] => s
  | p :: rest => run (set_radius s p) rest

end SphereShape3D

/-! # Canvas group (`scene/2d/canvas_group.cpp`) -/

namespace CanvasGroup

open OpenXRCompositionLayer (real_t)

/-- A call the node makes: on the rendering server (always with
`CANVAS_GROUP_MODE_TRANSPARENT` and `true`), or `queue_redraw`. -/
inductive Call
  | canvas_item_set_canvas_group_mode (clear_margin fit_margin : real_t) (use_mipmaps : Bool)
  | queue_redraw
  deriving DecidableEq, Repr

/-- The members of `CanvasGroup`, the calls made so far, and how many times
`ERR_FAIL_COND` fired. -/
structure Group where
  fit_margin : real_t
  clear_margin : real_t
  use_mipmaps : Bool
  calls : List Call
  errors : Nat
  deriving DecidableEq, Repr

/-- The call on the rendering server that the three setters share. -/
def update_canvas_group_mode (g : Group) : Group :=
  { g with calls := g.calls
      ++ [.canvas_item_set_canvas_group_mode g.clear_margin g.fit_margin g.use_mipmaps] }

/-- The function `CanvasGroup::set_fit_margin`. -/
def set_fit_margin (g : Group) (p_fit_margin : real_t) : Group :=
  if p_fit_margin.lt (.fin 0) then
    { g with errors := g.errors + 1 }
  else
    let g1 := update_canvas_group_mode { g with fit_margin := p_fit_margin }
    { g1 with calls := g1.calls ++ [.queue_redraw] }

/-- The function `CanvasGroup::get_fit_margin`. -/
def get_fit_margin (g : Group) : real_t :=
  g.fit_margin

/-- The function `CanvasGroup::set_clear_margin`. -/
def set_clear_margin (g : Group) (p_clear_margin : real_t) : Group :=
  if p_clear_margin.lt (.fin 0) then
    { g with errors := g.errors + 1 }
  else
    let g1 := update_canvas_group_mode { g with clear_margin := p_clear_margin }
    { g1 with calls := g1.calls ++ [.queue_redraw] }

/-- The function `CanvasGroup::get_clear_margin`. -/
def get_clear_margin (g : Group) : real_t :=
  g.clear_margin

/-- The function `CanvasGroup::set_use_mipmaps`. -/
def set_use_mipmaps (g : Group) (p_use_mipmaps : Bool) : Group :=
  update_canvas_group_mode { g with use_mipmaps := p_use_mipmaps }

/-- The function `CanvasGroup::is_using_mipmaps`. -/
def is_using_mipmaps (g : Group) : Bool :=
  g.use_mipmaps

/-- The constructor `CanvasGroup::CanvasGroup`; the three arguments are the members'
initialisers, which are declared outside this file. -/
def construct (fit_margin0 clear_margin0 : real_t) (use_mipmaps0 : Bool) : Group :=
  set_fit_margin
    { fit_margin := fit_margin0, clear_margin := clear_margin0, use_mipmaps := use_mipmaps0,
      calls := [], errors := 0 }
    (.fin 10)

/-- A call of one of the three setters. -/
inductive Setter
  | fit_margin (p_fit_margin : real_t)
  | clear_margin (p_clear_margin : real_t)
  | use_mipmaps (p_use_mipmaps : Bool)
  deriving DecidableEq, Repr

/-- Run one setter. -/
def Setter.apply (g : Group) : Setter → Group
  | .fit_margin p => set_fit_margin g p
  | .clear_margin p => set_clear_margin g p
  | .use_mipmaps b => set_use_mipmaps g b

/-- A sequence of setter calls. -/
def run (g : Group) : List Setter → Group
  | [] => g
  | c :: rest => run (c.apply g) rest

/-- The enum `CanvasItem::ClipChildrenMode`. -/
inductive ClipChildrenMode
  | CLIP_CHILDREN_DISABLED
  | CLIP_CHILDREN_ONLY
  | CLIP_CHILDREN_AND_DRAW
  deriving DecidableEq, Repr

/-- What the two `Object::cast_to` of the loop can tell about an ancestor: it is no
`CanvasItem`, a `CanvasItem` that is no `CanvasGroup`, or a `CanvasGroup` (which is a
`CanvasItem` too). -/
inductive NodeClass
  | node
  | canvas_item
  | canvas_group
  deriving DecidableEq, Repr

/-- An ancestor: its name, its class, and (for a canvas item) its clip-children mode. -/
structure Ancestor where
  name : String
  node_class : NodeClass
  clip_children_mode : ClipChildrenMode
  deriving DecidableEq, Repr

/-- Whether `Object::cast_to<CanvasItem>(n)` is non-null. -/
def Ancestor.as_canvas_item (n : Ancestor) : Bool :=
  n.node_class != .node

/-- Whether `Object::cast_to<CanvasGroup>(n)` is non-null. -/
def Ancestor.as_canvas_group (n : Ancestor) : Bool :=
  n.node_class == .canvas_group

/-- An entry of the returned array: a warning of the base class `Node2D`, "Ancestor
"%s" clips its children, so this CanvasGroup will not function properly." or "Ancestor
"%s" is a CanvasGroup, so this CanvasGroup will not function properly.", with the name
that fills the placeholder. -/
inductive Warning
  | inherited (text : String)
  | ancestor_clips (name : String)
  | ancestor_is_canvas_group (name : String)
  deriving DecidableEq, Repr

/-- The `while (n)` loop of `CanvasGroup::get_configuration_warnings`; the list holds
`n`, `n->get_parent()`, ... up to the root. -/
def warnings_loop (warned_about_ancestor_clipping warned_about_canvasgroup_ancestor : Bool)
    (warnings : List Warning) : List Ancestor → List Warning
  | [] => warnings
  | n :: parents =>
    let clip : Bool :=
      !warned_about_ancestor_clipping && n.as_canvas_item
        && n.clip_children_mode != .CLIP_CHILDREN_DISABLED
    let warnings1 := if clip then warnings ++ [.ancestor_clips n.name] else warnings
    let warned1 := if clip then true else warned_about_ancestor_clipping
    let group : Bool := !warned_about_canvasgroup_ancestor && n.as_canvas_group
    let warnings2 := if group then warnings1 ++ [.ancestor_is_canvas_group n.name] else warnings1
    let warned2 := if group then true else warned_about_canvasgroup_ancestor
    if warned1 && warned2 then
      warnings2
    else
      warnings_loop warned1 warned2 warnings2 parents

/-- The function `CanvasGroup::get_configuration_warnings`.  `inherited` is the
answer of `Node2D::get_configuration_warnings()`, `ancestors` the chain from
`get_parent()` up to the root. -/
def get_configuration_warnings (inside_tree : Bool) (inherited : List String)
    (ancestors : List Ancestor) : List Warning :=
  let warnings : List Warning := inherited.map .inherited
  if inside_tree then
    warnings_loop false false warnings ancestors
  else
    warnings

/-- An ancestor clips its children. -/
def Ancestor.clips (n : Ancestor) : Bool :=
  n.as_canvas_item && n.clip_children_mode != .CLIP_CHILDREN_DISABLED

/-- The clipping warning for the nearest clipping ancestor, if there is one. -/
def nearest_clipping (ancestors : List Ancestor) : List Warning :=
  match ancestors.find? Ancestor.clips with
  | some n => [.ancestor_clips n.name]
  | none => []

/-- The canvas-group warning for the nearest canvas-group ancestor, if there is one. -/
def nearest_canvas_group (ancestors : List Ancestor) : List Warning :=
  match ancestors.find? Ancestor.as_canvas_group with
  | some n => [.ancestor_is_canvas_group n.name]
  | none => []

/-- The entry is a clipping warning. -/
def Warning.is_clipping : Warning → Bool
  | .ancestor_clips _ => true
  | _ => false

/-- The entry is a canvas-group warning. -/
def Warning.is_canvas_group : Warning → Bool
  | .ancestor_is_canvas_group _ => true
  | _ => false

/-- A chain for the concrete evaluations: a plain node, a clipping control, a canvas
group, another clipping item. -/
def ancestors0 : List Ancestor :=
  [ { name := "Pivot", node_class := .node, clip_children_mode := .CLIP_CHILDREN_DISABLED },
    { name := "Panel", node_class := .canvas_item, clip_children_mode := .CLIP_CHILDREN_ONLY },
    { name := "Group", node_class := .canvas_group,
      clip_children_mode := .CLIP_CHILDREN_DISABLED },
    { name := "Root", node_class := .canvas_item,
      clip_children_mode := .CLIP_CHILDREN_AND_DRAW } ]

end CanvasGroup

namespace OpenXRCompositionLayer

/-! ## Value comparisons, material kinds and registration counts -/

/-- A zero of either sign. -/
def real_t.is_zero : real_t → Bool
  | .neg_zero => true
  | .fin q => q == 0
  | _ => false

/-- The same float value, or two zeros that differ in sign only. -/
def real_t.same_up_to_zero_sign (a b : real_t) : Bool :=
  a == b || (a.is_zero && b.is_zero)

/-- Colours whose channels are the same up to the sign of a zero. -/
def Color.same_up_to_zero_sign (x y : Color) : Bool :=
  x.r.same_up_to_zero_sign y.r && x.g.same_up_to_zero_sign y.g
    && x.b.same_up_to_zero_sign y.b && x.a.same_up_to_zero_sign y.a

/-- A colour that differs from the border colour of `swapchain_state0` in the sign of
the red zero only. -/
def color_neg_zero_red : Color :=
  ⟨.neg_zero, .fin 0, .fin 0, .fin 0⟩

/-- A material as the node makes them: the cutout shader, or a standard material
that is unshaded. -/
def Material.node_made : Material → Bool
  | .hole_punch_shader => true
  | .standard unshaded _ _ _ => unshaded

/-- The fallback, when there is one, carries no override material or one as the
node makes them. -/
def fallback_node_made : Option MeshInstance3D → Bool
  | some fb =>
    match fb.surface_override_material with
    | some m => m.node_made
    | none => true
  | none => true

/-- The three-way choice of the fallback material, in the words of the spec: the
cutout shader when hole punch is on outside the editor on a natively supported
layer; else, with a viewport bound, an unshaded material showing the viewport's
texture, without depth test unless hole punch is on, alpha-blended iff
`alpha_blend`; else none. -/
def spec_fallback_material (env : Env) (s : Layer) : Option Material :=
  if s.enable_hole_punch && !env.is_editor_hint && is_natively_supported env then
    some .hole_punch_shader
  else
    match s.layer_viewport with
    | some v => some (.standard true (!s.enable_hole_punch) (get_alpha_blend s) (some v))
    | none => none

/-- The registration flag and the number of register and unregister calls. -/
def registration_trace (s : Layer) : Bool × Nat × Nat :=
  (s.registered, register_calls s, unregister_calls s)

/-! ## Field lemmas for the helper functions -/

section field_lemmas

variable (env : Env) (vps : Viewports) (s : Layer)

theorem setup_eq :
    _setup_composition_layer_provider env vps s =
      if s.use_android_surface || s.layer_viewport.isSome then
        { s with
          registered := env.composition_layer_extension || s.registered
          openxr_layer_provider :=
            match s.layer_viewport with
            | some v => { s.openxr_layer_provider with viewport := some v, viewport_size := (vps v).size }
            | none => s.openxr_layer_provider
          calls := s.calls
            ++ (if env.composition_layer_extension then
                  [Call.register_viewport_composition_layer_provider] else [])
            ++ (match s.layer_viewport with
                | some v => [Call.set_viewport (some v) (vps v).size]
                | none => []) }
      else s := by
  obtain ⟨vp, uas, sz, hp, reg, running, fb, upd, vis, ins, prov, calls, errs⟩ := s
  cases vp <;> cases uas <;> cases h : env.composition_layer_extension <;>
    simp [_setup_composition_layer_provider, provider_set_viewport, Layer.call, h]

theorem clear_eq :
    _clear_composition_layer_provider env s =
      { s with
        registered := !env.composition_layer_extension && s.registered
        openxr_layer_provider :=
          if s.use_android_surface then s.openxr_layer_provider
          else { s.openxr_layer_provider with viewport := none, viewport_size := (0, 0) }
        calls := s.calls
          ++ (if env.composition_layer_extension then
                [Call.unregister_viewport_composition_layer_provider] else [])
          ++ (if s.use_android_surface then [] else [Call.set_viewport none (0, 0)]) } := by
  obtain ⟨vp, uas, sz, hp, reg, running, fb, upd, vis, ins, prov, calls, errs⟩ := s
  cases uas <;> cases h : env.composition_layer_extension <;>
    simp [_clear_composition_layer_provider, provider_set_viewport, Layer.call, h]

@[simp] theorem setup_layer_viewport :
    (_setup_composition_layer_provider env vps s).layer_viewport = s.layer_viewport := by
  rw [setup_eq]; split <;> rfl

@[simp] theorem setup_use_android_surface :
    (_setup_composition_layer_provider env vps s).use_android_surface = s.use_android_surface := by
  rw [setup_eq]; split <;> rfl

@[simp] theorem setup_android_surface_size :
    (_setup_composition_layer_provider env vps s).android_surface_size = s.android_surface_size := by
  rw [setup_eq]; split <;> rfl

@[simp] theorem setup_enable_hole_punch :
    (_setup_composition_layer_provider env vps s).enable_hole_punch = s.enable_hole_punch := by
  rw [setup_eq]; split <;> rfl

@[simp] theorem setup_openxr_session_running :
    (_setup_composition_layer_provider env vps s).openxr_session_running = s.openxr_session_running := by
  rw [setup_eq]; split <;> rfl

@[simp] theorem setup_fallback :
    (_setup_composition_layer_provider env vps s).fallback = s.fallback := by
  rw [setup_eq]; split <;> rfl

@[simp] theorem setup_should_update_fallback_mesh :
    (_setup_composition_layer_provider env vps s).should_update_fallback_mesh = s.should_update_fallback_mesh := by
  rw [setup_eq]; split <;> rfl

@[simp] theorem setup_visible :
    (_setup_composition_layer_provider env vps s).visible = s.visible := by
  rw [setup_eq]; split <;> rfl

@[simp] theorem setup_inside_tree :
    (_setup_composition_layer_provider env vps s).inside_tree = s.inside_tree := by
  rw [setup_eq]; split <;> rfl

@[simp] theorem setup_errors :
    (_setup_composition_layer_provider env vps s).errors = s.errors := by
  rw [setup_eq]; split <;> rfl

@[simp] theorem clear_layer_viewport :
    (_clear_composition_layer_provider env s).layer_viewport = s.layer_viewport := by
  rw [clear_eq]

@[simp] theorem clear_use_android_surface :
    (_clear_composition_layer_provider env s).use_android_surface = s.use_android_surface := by
  rw [clear_eq]

@[simp] theorem clear_android_surface_size :
    (_clear_composition_layer_provider env s).android_surface_size = s.android_surface_size := by
  rw [clear_eq]

@[simp] theorem clear_enable_hole_punch :
    (_clear_composition_layer_provider env s).enable_hole_punch = s.enable_hole_punch := by
  rw [clear_eq]

@[simp] theorem clear_openxr_session_running :
    (_clear_composition_layer_provider env s).openxr_session_running = s.openxr_session_running := by
  rw [clear_eq]

@[simp] theorem clear_fallback :
    (_clear_composition_layer_provider env s).fallback = s.fallback := by
  rw [clear_eq]

@[simp] theorem clear_should_update_fallback_mesh :
    (_clear_composition_layer_provider env s).should_update_fallback_mesh = s.should_update_fallback_mesh := by
  rw [clear_eq]

@[simp] theorem clear_visible :
    (_clear_composition_layer_provider env s).visible = s.visible := by
  rw [clear_eq]

@[simp] theorem clear_inside_tree :
    (_clear_composition_layer_provider env s).inside_tree = s.inside_tree := by
  rw [clear_eq]

@[simp] theorem clear_errors :
    (_clear_composition_layer_provider env s).errors = s.errors := by
  rw [clear_eq]

@[simp] theorem reset_layer_viewport :
    (_reset_fallback_material env s).layer_viewport = s.layer_viewport := by
  unfold _reset_fallback_material
  repeat' split
  all_goals simp [Layer.fail]

@[simp] theorem reset_use_android_surface :
    (_reset_fallback_material env s).use_android_surface = s.use_android_surface := by
  unfold _reset_fallback_material
  repeat' split
  all_goals simp [Layer.fail]

@[simp] theorem reset_android_surface_size :
    (_reset_fallback_material env s).android_surface_size = s.android_surface_size := by
  unfold _reset_fallback_material
  repeat' split
  all_goals simp [Layer.fail]

@[simp] theorem reset_enable_hole_punch :
    (_reset_fallback_material env s).enable_hole_punch = s.enable_hole_punch := by
  unfold _reset_fallback_material
  repeat' split
  all_goals simp [Layer.fail]

@[simp] theorem reset_registered :
    (_reset_fallback_material env s).registered = s.registered := by
  unfold _reset_fallback_material
  repeat' split
  all_goals simp [Layer.fail]

@[simp] theorem reset_openxr_session_running :
    (_reset_fallback_material env s).openxr_session_running = s.openxr_session_running := by
  unfold _reset_fallback_material
  repeat' split
  all_goals simp [Layer.fail]

@[simp] theorem reset_should_update_fallback_mesh :
    (_reset_fallback_material env s).should_update_fallback_mesh = s.should_update_fallback_mesh := by
  unfold _reset_fallback_material
  repeat' split
  all_goals simp [Layer.fail]

@[simp] theorem reset_visible :
    (_reset_fallback_material env s).visible = s.visible := by
  unfold _reset_fallback_material
  repeat' split
  all_goals simp [Layer.fail]

@[simp] theorem reset_inside_tree :
    (_reset_fallback_material env s).inside_tree = s.inside_tree := by
  unfold _reset_fallback_material
  repeat' split
  all_goals simp [Layer.fail]

@[simp] theorem reset_openxr_layer_provider :
    (_reset_fallback_material env s).openxr_layer_provider = s.openxr_layer_provider := by
  unfold _reset_fallback_material
  repeat' split
  all_goals simp [Layer.fail]

@[simp] theorem reset_calls :
    (_reset_fallback_material env s).calls = s.calls := by
  unfold _reset_fallback_material
  repeat' split
  all_goals simp [Layer.fail]

@[simp] theorem create_fallback_layer_viewport :
    (_create_fallback_node s).layer_viewport = s.layer_viewport := by
  unfold _create_fallback_node
  split <;> simp [Layer.fail]

@[simp] theorem create_fallback_use_android_surface :
    (_create_fallback_node s).use_android_surface = s.use_android_surface := by
  unfold _create_fallback_node
  split <;> simp [Layer.fail]

@[simp] theorem create_fallback_android_surface_size :
    (_create_fallback_node s).android_surface_size = s.android_surface_size := by
  unfold _create_fallback_node
  split <;> simp [Layer.fail]

@[simp] theorem create_fallback_enable_hole_punch :
    (_create_fallback_node s).enable_hole_punch = s.enable_hole_punch := by
  unfold _create_fallback_node
  split <;> simp [Layer.fail]

@[simp] theorem create_fallback_registered :
    (_create_fallback_node s).registered = s.registered := by
  unfold _create_fallback_node
  split <;> simp [Layer.fail]

@[simp] theorem create_fallback_openxr_session_running :
    (_create_fallback_node s).openxr_session_running = s.openxr_session_running := by
  unfold _create_fallback_node
  split <;> simp [Layer.fail]

@[simp] theorem create_fallback_visible :
    (_create_fallback_node s).visible = s.visible := by
  unfold _create_fallback_node
  split <;> simp [Layer.fail]

@[simp] theorem create_fallback_inside_tree :
    (_create_fallback_node s).inside_tree = s.inside_tree := by
  unfold _create_fallback_node
  split <;> simp [Layer.fail]

@[simp] theorem create_fallback_openxr_layer_provider :
    (_create_fallback_node s).openxr_layer_provider = s.openxr_layer_provider := by
  unfold _create_fallback_node
  split <;> simp [Layer.fail]

@[simp] theorem create_fallback_calls :
    (_create_fallback_node s).calls = s.calls := by
  unfold _create_fallback_node
  split <;> simp [Layer.fail]

@[simp] theorem remove_fallback_layer_viewport :
    (_remove_fallback_node s).layer_viewport = s.layer_viewport := by
  unfold _remove_fallback_node
  split <;> simp [Layer.fail]

@[simp] theorem remove_fallback_use_android_surface :
    (_remove_fallback_node s).use_android_surface = s.use_android_surface := by
  unfold _remove_fallback_node
  split <;> simp [Layer.fail]

@[simp] theorem remove_fallback_android_surface_size :
    (_remove_fallback_node s).android_surface_size = s.android_surface_size := by
  unfold _remove_fallback_node
  split <;> simp [Layer.fail]

@[simp] theorem remove_fallback_enable_hole_punch :
    (_remove_fallback_node s).enable_hole_punch = s.enable_hole_punch := by
  unfold _remove_fallback_node
  split <;> simp [Layer.fail]

@[simp] theorem remove_fallback_registered :
    (_remove_fallback_node s).registered = s.registered := by
  unfold _remove_fallback_node
  split <;> simp [Layer.fail]

@[simp] theorem remove_fallback_openxr_session_running :
    (_remove_fallback_node s).openxr_session_running = s.openxr_session_running := by
  unfold _remove_fallback_node
  split <;> simp [Layer.fail]

@[simp] theorem remove_fallback_fallback :
    (_remove_fallback_node s).fallback = s.fallback := by
  unfold _remove_fallback_node
  split <;> simp [Layer.fail]

@[simp] theorem remove_fallback_should_update_fallback_mesh :
    (_remove_fallback_node s).should_update_fallback_mesh = s.should_update_fallback_mesh := by
  unfold _remove_fallback_node
  split <;> simp [Layer.fail]

@[simp] theorem remove_fallback_visible :
    (_remove_fallback_node s).visible = s.visible := by
  unfold _remove_fallback_node
  split <;> simp [Layer.fail]

@[simp] theorem remove_fallback_inside_tree :
    (_remove_fallback_node s).inside_tree = s.inside_tree := by
  unfold _remove_fallback_node
  split <;> simp [Layer.fail]

@[simp] theorem remove_fallback_openxr_layer_provider :
    (_remove_fallback_node s).openxr_layer_provider = s.openxr_layer_provider := by
  unfold _remove_fallback_node
  split <;> simp [Layer.fail]

@[simp] theorem remove_fallback_calls :
    (_remove_fallback_node s).calls = s.calls := by
  unfold _remove_fallback_node
  split <;> simp [Layer.fail]

@[simp] theorem setup_registered :
    (_setup_composition_layer_provider env vps s).registered =
      (((s.use_android_surface || s.layer_viewport.isSome) && env.composition_layer_extension)
        || s.registered) := by
  rw [setup_eq]
  cases s.use_android_surface <;> cases s.layer_viewport <;>
    cases env.composition_layer_extension <;> simp

@[simp] theorem clear_registered :
    (_clear_composition_layer_provider env s).registered =
      (!env.composition_layer_extension && s.registered) := by
  rw [clear_eq]

@[simp] theorem reset_fallback_isSome :
    (_reset_fallback_material env s).fallback.isSome = s.fallback.isSome := by
  unfold _reset_fallback_material
  repeat' split
  all_goals simp_all [Layer.fail]

@[simp] theorem create_fallback_isSome :
    (_create_fallback_node s).fallback.isSome = true := by
  unfold _create_fallback_node
  split <;> simp_all [Layer.fail]

end field_lemmas

section set_layer_viewport_lemmas

variable (env : Env) (others : List Layer) (vps : Viewports) (s : Layer) (p : Option ViewportId)

theorem set_layer_viewport_use_android_surface :
    (set_layer_viewport env others vps s p).1.use_android_surface = s.use_android_surface := by
  unfold set_layer_viewport
  split_ifs <;> simp only [] <;> (try split_ifs) <;> (try split) <;>
    simp [Layer.fail, provider_set_viewport, Layer.call, apply_ite Layer.use_android_surface]

theorem set_layer_viewport_inside_tree :
    (set_layer_viewport env others vps s p).1.inside_tree = s.inside_tree := by
  unfold set_layer_viewport
  split_ifs <;> simp only [] <;> (try split_ifs) <;> (try split) <;>
    simp [Layer.fail, provider_set_viewport, Layer.call, apply_ite Layer.inside_tree]

theorem set_layer_viewport_fallback_isSome :
    (set_layer_viewport env others vps s p).1.fallback.isSome = s.fallback.isSome := by
  unfold set_layer_viewport
  split_ifs <;> simp only [] <;> (try split_ifs) <;> (try split) <;>
    simp [Layer.fail, provider_set_viewport, Layer.call, apply_ite Layer.fallback]

/-- Whether `set_layer_viewport` gets past its guards and stores the argument. -/
theorem set_layer_viewport_layer_viewport :
    (set_layer_viewport env others vps s p).1.layer_viewport =
      if (match p with
          | some v => is_viewport_in_use others v
          | none => false) || (s.use_android_surface && p.isSome) then s.layer_viewport else p := by
  unfold set_layer_viewport
  rcases p with _ | v
  · split_ifs <;> simp only [] <;> (try split_ifs) <;> (try split) <;>
      simp_all [Layer.fail, provider_set_viewport, Layer.call, apply_ite Layer.layer_viewport]
  · cases hu : is_viewport_in_use others v <;> cases ha : s.use_android_surface <;>
      split_ifs <;> simp only [] <;> (try split_ifs) <;> (try split) <;>
      simp_all [Layer.fail, provider_set_viewport, Layer.call, apply_ite Layer.layer_viewport]

/-- Either `set_layer_viewport` leaves the binding and the registration as they
were, or it stores an argument that passed the in-use check, registering only
inside the tree and with the extension present. -/
theorem set_layer_viewport_cases :
    ((set_layer_viewport env others vps s p).1.registered = s.registered ∧
      (set_layer_viewport env others vps s p).1.layer_viewport = s.layer_viewport) ∨
    ((set_layer_viewport env others vps s p).1.layer_viewport = p ∧
      (∀ v, p = some v → is_viewport_in_use others v = false) ∧
      ((set_layer_viewport env others vps s p).1.registered = true →
        s.registered = true ∨
          (s.inside_tree = true ∧ env.composition_layer_extension = true))) := by
  unfold set_layer_viewport
  rcases p with _ | v
  · split_ifs <;> simp only [] <;> (try split_ifs) <;> (try split) <;>
      simp_all [Layer.fail, provider_set_viewport, Layer.call, apply_ite Layer.layer_viewport,
        apply_ite Layer.registered]
  · cases hu : is_viewport_in_use others v <;> cases ha : s.use_android_surface <;>
      split_ifs <;> simp only [] <;> (try split_ifs) <;> (try split) <;>
      simp_all [Layer.fail, provider_set_viewport, Layer.call, apply_ite Layer.layer_viewport,
        apply_ite Layer.registered]

end set_layer_viewport_lemmas

theorem set_use_android_surface_fallback_isSome (env : Env) (others : List Layer)
    (vps : Viewports) (s : Layer) (b : Bool) :
    (set_use_android_surface env others vps s b).1.fallback.isSome = s.fallback.isSome := by
  unfold set_use_android_surface
  cases b <;> cases hu : s.use_android_surface <;>
    simp [provider_set_use_android_surface, Layer.call, set_layer_viewport_fallback_isSome]

theorem construct_fallback_isSome (env : Env) (is_running : Bool) (sz : Size2i) (prov : Provider) :
    (construct env is_running sz prov).fallback.isSome = env.is_editor_hint := by
  unfold construct
  cases env.is_editor_hint <;> simp [_create_fallback_node]

theorem construct_registered (env : Env) (is_running : Bool) (sz : Size2i) (prov : Provider) :
    (construct env is_running sz prov).registered = false := by
  unfold construct
  cases env.is_editor_hint <;> simp

/-! ## The android surface and the viewport exclude each other -/

theorem set_use_android_surface_excl (env : Env) (others : List Layer) (vps : Viewports)
    (s : Layer) (b : Bool) (h : android_excludes_viewport s) :
    android_excludes_viewport (set_use_android_surface env others vps s b).1 := by
  unfold android_excludes_viewport at *
  unfold set_use_android_surface
  cases b <;> cases hu : s.use_android_surface <;>
    simp_all [provider_set_use_android_surface, Layer.call, set_layer_viewport_layer_viewport,
      set_layer_viewport_use_android_surface]

theorem step_android_excludes_viewport (env : Env) (others : List Layer) (w : World) (e : Event)
    (h : android_excludes_viewport w.layer) :
    android_excludes_viewport (step env others w e).layer := by
  cases e
  case set_use_android_surface b => exact set_use_android_surface_excl env others _ _ b h
  case set_layer_viewport p =>
    unfold android_excludes_viewport at *
    simp only [step, set_layer_viewport_layer_viewport, set_layer_viewport_use_android_surface]
    intro hu
    rcases p with _ | v <;> simp [hu, h hu]
  all_goals
    unfold android_excludes_viewport at *
    simp only [step, _on_openxr_session_begun, _on_openxr_session_stopping, _notification,
      set_android_surface_size, set_enable_hole_punch, set_sort_order,
      set_alpha_blend, update_fallback_mesh, set_swapchain_state]
    repeat' split
    all_goals simp_all [provider_set_use_android_surface, Layer.call]

theorem construct_android_excludes_viewport (env : Env) (is_running : Bool) (sz : Size2i)
    (prov : Provider) : android_excludes_viewport (construct env is_running sz prov) := by
  unfold android_excludes_viewport construct
  cases env.is_editor_hint <;> simp

theorem run_android_excludes_viewport (env : Env) (tr : List (List Layer × Event)) :
    ∀ w : World, android_excludes_viewport w.layer →
      android_excludes_viewport (run env w tr).layer := by
  induction tr with
  | nil => intro w h; exact h
  | cons oe rest ih =>
    intro w h
    obtain ⟨others, e⟩ := oe
    exact ih _ (step_android_excludes_viewport env others w e h)

/-! ## Two layers and one viewport -/

theorem in_use_of_registered (o : Layer) (v : ViewportId)
    (ho : o.registered = true → o.inside_tree = true)
    (hr : o.registered = true) (hv : o.layer_viewport = some v) :
    is_viewport_in_use [o] v = true := by
  simp [is_viewport_in_use, ho hr, hv]

theorem enter_tree_fields (env : Env) (others : List Layer) (vps : Viewports) (s : Layer) :
    (step env others ⟨s, vps⟩ .enter_tree).layer.layer_viewport = s.layer_viewport ∧
    (step env others ⟨s, vps⟩ .enter_tree).layer.inside_tree = true ∧
    (step env others ⟨s, vps⟩ .enter_tree).layer.registered =
      if bound_viewport_in_use others s then !env.composition_layer_extension && s.registered
      else if s.openxr_session_running && s.visible then
        ((s.use_android_surface || s.layer_viewport.isSome) && env.composition_layer_extension)
          || s.registered
      else s.registered := by
  obtain ⟨vp, uas, sz, hp, reg, running, fb, upd, vis, ins, prov, calls, errs⟩ := s
  simp only [step, _notification, bound_viewport_in_use]
  rcases vp with _ | v
  · split_ifs <;> simp_all
  · cases hu : is_viewport_in_use others v <;> split_ifs <;> simp_all

theorem step_viewport_or_tree (env : Env) (o : Layer) (w : World) (e : Event)
    (he : e.is_viewport_or_tree = true)
    (hs : registered_in_tree env w.layer) (ho : o.registered = true → o.inside_tree = true)
    (hc : ¬ both_registered_same_viewport w.layer o) :
    registered_in_tree env (step env [o] w e).layer ∧
      ¬ both_registered_same_viewport (step env [o] w e).layer o := by
  unfold registered_in_tree both_registered_same_viewport at *
  cases e <;> try (simp [Event.is_viewport_or_tree] at he)
  case enter_tree =>
    obtain ⟨h1, h2, h3⟩ := enter_tree_fields env [o] w.viewports w.layer
    rw [h1, h2, h3]
    by_cases hu : bound_viewport_in_use [o] w.layer = true
    · rw [if_pos hu]
      cases hr : w.layer.registered
      · simp
      · simp [(hs hr).2]
    · rw [if_neg hu]
      have hno : ¬ (o.registered = true ∧ w.layer.layer_viewport = o.layer_viewport
          ∧ w.layer.layer_viewport ≠ none) := by
        rintro ⟨hor, hvo, hvn⟩
        rcases hv : w.layer.layer_viewport with _ | v
        · exact hvn hv
        · apply hu
          simp only [bound_viewport_in_use, hv]
          exact in_use_of_registered o v ho hor (by rw [← hvo, hv])
      refine ⟨?_, fun h => hno h.2⟩
      intro hr
      refine ⟨rfl, ?_⟩
      split_ifs at hr with hc2
      · cases hext : env.composition_layer_extension
        · simp [hext] at hr
          exact ((hs hr).2.symm.trans hext).symm ▸ rfl
        · rfl
      · exact (hs hr).2
  case exit_tree =>
    simp only [step, _notification, clear_registered, clear_layer_viewport]
    cases hr : w.layer.registered
    · simp
    · simp [(hs hr).2]
  case set_layer_viewport p =>
    simp only [step]
    have hi := set_layer_viewport_inside_tree env [o] w.viewports w.layer p
    rcases set_layer_viewport_cases env [o] w.viewports w.layer p with ⟨h1, h2⟩ | ⟨h1, h2, h3⟩
    · rw [h1, h2, hi]; exact ⟨hs, hc⟩
    · rw [h1, hi]
      refine ⟨?_, ?_⟩
      · intro hr
        rcases h3 hr with h | h
        · exact hs h
        · exact h
      · rintro ⟨_, hor, hpo, hpn⟩
        rcases p with _ | v
        · exact hpn rfl
        · have := in_use_of_registered o v ho hor hpo.symm
          rw [h2 v rfl] at this
          exact Bool.false_ne_true this

theorem both_registered_same_viewport_symm (x y : Layer)
    (h : both_registered_same_viewport x y) : both_registered_same_viewport y x := by
  obtain ⟨h1, h2, h3, h4⟩ := h
  exact ⟨h2, h1, h3.symm, fun h => h4 (h3.trans h)⟩

theorem step2_two_layer_invariant (envA envB : Env) (w : World2) (te : Target × Event)
    (he : te.2.is_viewport_or_tree = true) (h : two_layer_invariant envA envB w) :
    two_layer_invariant envA envB (step2 envA envB w te) := by
  obtain ⟨hA, hB, hc⟩ := h
  obtain ⟨tgt, e⟩ := te
  cases tgt
  · obtain ⟨h1, h2⟩ := step_viewport_or_tree envA w.b ⟨w.a, w.viewports⟩ e he hA
      (fun h => (hB h).1) hc
    exact ⟨h1, hB, h2⟩
  · obtain ⟨h1, h2⟩ := step_viewport_or_tree envB w.a ⟨w.b, w.viewports⟩ e he hB
      (fun h => (hA h).1) (fun h => hc (both_registered_same_viewport_symm _ _ h))
    exact ⟨hA, h1, fun h => h2 (both_registered_same_viewport_symm _ _ h)⟩

theorem run2_two_layer_invariant (envA envB : Env) (tr : List (Target × Event)) :
    ∀ w : World2, all_viewport_or_tree tr = true → two_layer_invariant envA envB w →
      two_layer_invariant envA envB (run2 envA envB w tr) := by
  induction tr with
  | nil => intro w _ h; exact h
  | cons te rest ih =>
    intro w htr h
    simp only [all_viewport_or_tree, List.all_cons, Bool.and_eq_true] at htr
    exact ih _ htr.2 (step2_two_layer_invariant envA envB w te htr.1 h)

/-! ## The fallback in the editor -/

theorem should_use_fallback_in_editor (env : Env) (s : Layer) (he : env.is_editor_hint = true) :
    _should_use_fallback_node env s = true := by
  simp [_should_use_fallback_node, he]

theorem step_fallback_in_editor (env : Env) (others : List Layer) (w : World) (e : Event)
    (he : env.is_editor_hint = true) (h : w.layer.fallback.isSome = true) :
    (step env others w e).layer.fallback.isSome = true := by
  cases e
  case set_use_android_surface b =>
    simp only [step, set_use_android_surface_fallback_isSome, h]
  case set_layer_viewport p =>
    simp only [step, set_layer_viewport_fallback_isSome, h]
  all_goals
    simp only [step, _on_openxr_session_begun, _on_openxr_session_stopping, _notification,
      set_android_surface_size, set_enable_hole_punch, set_sort_order,
      set_alpha_blend, update_fallback_mesh, set_swapchain_state,
      should_use_fallback_in_editor env _ he]
    repeat' split
    all_goals simp_all [provider_set_use_android_surface, Layer.call]

theorem run_fallback_in_editor (env : Env) (he : env.is_editor_hint = true)
    (tr : List (List Layer × Event)) :
    ∀ w : World, w.layer.fallback.isSome = true → (run env w tr).layer.fallback.isSome = true := by
  induction tr with
  | nil => intro w h; exact h
  | cons oe rest ih =>
    intro w h
    obtain ⟨others, e⟩ := oe
    exact ih _ (step_fallback_in_editor env others w e he h)

/-! ## Registration on supported and unsupported layers -/

theorem set_layer_viewport_registered_is_active (env : Env) (others : List Layer)
    (vps : Viewports) (s : Layer) (p : Option ViewportId) (h : registered_is_active s) :
    registered_is_active (set_layer_viewport env others vps s p).1 := by
  unfold registered_is_active at *
  unfold set_layer_viewport
  split_ifs <;> simp only [] <;> (try split_ifs) <;> (try split) <;>
    simp_all [Layer.fail, provider_set_viewport, Layer.call]

theorem set_use_android_surface_registered_is_active (env : Env) (others : List Layer)
    (vps : Viewports) (s : Layer) (b : Bool) (h : registered_is_active s) :
    registered_is_active (set_use_android_surface env others vps s b).1 := by
  unfold set_use_android_surface
  by_cases hu : s.use_android_surface = b
  · rw [if_pos hu]; exact h
  · rw [if_neg hu]
    cases b
    · simpa [registered_is_active, provider_set_use_android_surface, Layer.call] using h
    · have := set_layer_viewport_registered_is_active env others vps
        { s with use_android_surface := true } none h
      simpa [registered_is_active, provider_set_use_android_surface, Layer.call] using this

theorem step_registered_is_active (env : Env) (others : List Layer) (w : World) (e : Event)
    (hn : is_natively_supported env = true) (h : registered_is_active w.layer) :
    registered_is_active (step env others w e).layer := by
  have hext : env.composition_layer_extension = true := by
    unfold is_natively_supported at hn
    cases hc : env.composition_layer_extension <;> simp_all
  cases e
  case set_use_android_surface b =>
    exact set_use_android_surface_registered_is_active env others _ _ b h
  case set_layer_viewport p =>
    exact set_layer_viewport_registered_is_active env others _ _ p h
  case set_visible v =>
    unfold registered_is_active at *
    simp only [step, _notification, hn, Bool.true_and]
    split_ifs with h1 h2
    · simp_all
    · simp [hext]
    · intro hr
      have := h hr
      simp_all
  all_goals
    unfold registered_is_active at *
    simp only [step, _on_openxr_session_begun, _on_openxr_session_stopping, _notification,
      set_android_surface_size, set_enable_hole_punch, set_sort_order,
      set_alpha_blend, update_fallback_mesh, set_swapchain_state, hn]
    repeat' split
    all_goals simp_all [provider_set_use_android_surface, Layer.call]

theorem run_registered_is_active (env : Env) (hn : is_natively_supported env = true)
    (tr : List (List Layer × Event)) :
    ∀ w : World, registered_is_active w.layer → registered_is_active (run env w tr).layer := by
  induction tr with
  | nil => intro w h; exact h
  | cons oe rest ih =>
    intro w h
    obtain ⟨others, e⟩ := oe
    exact ih _ (step_registered_is_active env others w e hn h)

theorem set_layer_viewport_registered_unsupported (env : Env) (others : List Layer)
    (vps : Viewports) (s : Layer) (p : Option ViewportId)
    (hn : is_natively_supported env = false) :
    (set_layer_viewport env others vps s p).1.registered = s.registered := by
  unfold set_layer_viewport
  split_ifs <;> simp only [] <;> (try split_ifs) <;> (try split) <;>
    simp_all [Layer.fail, provider_set_viewport, Layer.call]

/-- On a layer that is not natively supported, no event other than entering the
tree turns `registered` on. -/
theorem step_registered_unsupported (env : Env) (others : List Layer) (w : World) (e : Event)
    (hn : is_natively_supported env = false) (he : e ≠ .enter_tree)
    (h : (step env others w e).layer.registered = true) : w.layer.registered = true := by
  cases e
  case enter_tree => exact absurd rfl he
  case set_layer_viewport p =>
    simp only [step, set_layer_viewport_registered_unsupported env others _ _ p hn] at h
    exact h
  case set_use_android_surface b =>
    simp only [step, set_use_android_surface] at h
    split_ifs at h
    · exact h
    · simpa [provider_set_use_android_surface, Layer.call,
        set_layer_viewport_registered_unsupported env others _ _ none hn] using h
    · simpa [provider_set_use_android_surface, Layer.call] using h
  all_goals
    revert h
    simp only [step, _on_openxr_session_begun, _on_openxr_session_stopping, _notification,
      set_android_surface_size, set_enable_hole_punch, set_sort_order,
      set_alpha_blend, update_fallback_mesh, set_swapchain_state, hn]
    repeat' split
    all_goals simp_all [provider_set_use_android_surface, Layer.call]

/-! ## The claims -/

/-- Claim C1: `_should_use_fallback_node` is true exactly when the editor hint is
set, or the runtime is absent, or the session runs and (hole punch is on, or the
layer is neither natively supported nor on an android surface); otherwise it is
false. -/
theorem should_use_fallback_truth_table (env : Env) (s : Layer) :
    _should_use_fallback_node env s =
      (env.is_editor_hint || !env.openxr_api ||
        (s.openxr_session_running &&
          (s.enable_hole_punch || (!is_natively_supported env && !s.use_android_surface)))) := by
  unfold _should_use_fallback_node
  cases env.is_editor_hint <;> cases env.openxr_api <;> cases s.openxr_session_running <;> simp

/-- Claim C2, as stated, fails: layer B binds viewport 1 while outside the tree,
layer A then binds the same viewport (the in-use scan skips layers outside the
tree), and after both enter the tree both still hold viewport 1. -/
theorem two_layers_hold_same_viewport :
    (run2 env_native env_native ⟨layer0_running env_native, layer0_running env_native, viewports0⟩
      [(.B, .set_layer_viewport (some 1)), (.A, .set_layer_viewport (some 1)),
        (.A, .enter_tree), (.B, .enter_tree)]).a.layer_viewport = some 1 ∧
    (run2 env_native env_native ⟨layer0_running env_native, layer0_running env_native, viewports0⟩
      [(.B, .set_layer_viewport (some 1)), (.A, .set_layer_viewport (some 1)),
        (.A, .enter_tree), (.B, .enter_tree)]).b.layer_viewport = some 1 := by
  decide

/-- Claim C2, amended: over every sequence of `set_layer_viewport` calls and tree
enter/exit events on two fresh layers, the two layers are never both registered
with the compositor while holding the same non-null viewport. -/
theorem two_layers_never_both_registered_with_same_viewport (envA envB : Env)
    (runningA runningB : Bool) (szA szB : Size2i) (provA provB : Provider) (vps : Viewports)
    (tr : List (Target × Event)) (htr : all_viewport_or_tree tr = true) :
    ¬ both_registered_same_viewport
      (run2 envA envB ⟨construct envA runningA szA provA, construct envB runningB szB provB, vps⟩
        tr).a
      (run2 envA envB ⟨construct envA runningA szA provA, construct envB runningB szB provB, vps⟩
        tr).b := by
  have h0 : two_layer_invariant envA envB
      ⟨construct envA runningA szA provA, construct envB runningB szB provB, vps⟩ := by
    refine ⟨?_, ?_, ?_⟩
    · intro h; rw [construct_registered] at h; exact absurd h (by simp)
    · intro h; rw [construct_registered] at h; exact absurd h (by simp)
    · intro h; have := h.1; rw [construct_registered] at this; exact absurd this (by simp)
  exact (run2_two_layer_invariant envA envB tr _ htr h0).2.2

/-- Claim C2, amended, on a concrete run: A registers with viewport 1, B holds
the same viewport and is kept unregistered by the conflict guard. -/
theorem two_layers_never_both_registered_with_same_viewport_witness :
    all_viewport_or_tree
      [(.B, .set_layer_viewport (some 1)), (.A, .set_layer_viewport (some 1)),
        (.A, .enter_tree), (.B, .enter_tree)] = true ∧
    ¬ both_registered_same_viewport
      (run2 env_native env_native
        ⟨construct env_native true (1024, 1024) provider0,
          construct env_native true (1024, 1024) provider0, viewports0⟩
        [(.B, .set_layer_viewport (some 1)), (.A, .set_layer_viewport (some 1)),
          (.A, .enter_tree), (.B, .enter_tree)]).a
      (run2 env_native env_native
        ⟨construct env_native true (1024, 1024) provider0,
          construct env_native true (1024, 1024) provider0, viewports0⟩
        [(.B, .set_layer_viewport (some 1)), (.A, .set_layer_viewport (some 1)),
          (.A, .enter_tree), (.B, .enter_tree)]).b :=
  ⟨by decide,
    two_layers_never_both_registered_with_same_viewport env_native env_native true true
      (1024, 1024) (1024, 1024) provider0 provider0 viewports0 _ (by decide)⟩

/-- Claim C3: from a freshly constructed layer, after every sequence of events
(setters, session events, scene-tree events), `use_android_surface` is never true
while `layer_viewport` is non-null. -/
theorem android_surface_and_viewport_never_both (env : Env) (is_running : Bool) (sz : Size2i)
    (prov : Provider) (vps : Viewports) (tr : List (List Layer × Event)) :
    ¬ ((run env ⟨construct env is_running sz prov, vps⟩ tr).layer.use_android_surface = true ∧
        (run env ⟨construct env is_running sz prov, vps⟩ tr).layer.layer_viewport ≠ none) := by
  intro h
  exact h.2 (run_android_excludes_viewport env tr _
    (construct_android_excludes_viewport env is_running sz prov) h.1)

/-- Claim C4, as stated, fails: viewport 1 is already the viewport of another
layer, that layer is outside the tree, and `set_layer_viewport` accepts it. -/
theorem set_layer_viewport_accepts_viewport_of_detached_layer :
    layer_holding_1.layer_viewport = some 1 ∧
    (layer0 env_native).layer_viewport = none ∧
    (layer0 env_native).use_android_surface = false ∧
    (set_layer_viewport env_native [layer_holding_1] viewports0 (layer0 env_native)
      (some 1)).1.layer_viewport = some 1 := by
  decide

/-- Claim C4, amended: `set_layer_viewport(v)` with `v` non-null and different from
the current viewport is rejected, the state and the viewports left as they were
apart from the logged error, whenever `v` is the viewport of another layer that
is inside the tree, or android-surface mode is active. -/
theorem set_layer_viewport_conflict_rejected (env : Env) (others : List Layer) (vps : Viewports)
    (s : Layer) (v : ViewportId) (hne : s.layer_viewport ≠ some v)
    (hc : (∃ o ∈ others, o.inside_tree = true ∧ o.layer_viewport = some v)
      ∨ s.use_android_surface = true) :
    ∃ e, (e = Err.same_subviewport_with_multiple_layers ∨ e = Err.subviewport_with_android_surface)
      ∧ set_layer_viewport env others vps s (some v) = ({ s with errors := s.errors ++ [e] }, vps) := by
  unfold set_layer_viewport
  rw [if_neg hne]
  by_cases hu : is_viewport_in_use others v = true
  · exact ⟨_, Or.inl rfl, by simp [hu, Layer.fail]⟩
  · have ha : s.use_android_surface = true := by
      rcases hc with ⟨o, ho, h1, h2⟩ | ha
      · exact absurd (List.any_eq_true.mpr ⟨o, ho, by simp [h1, h2]⟩) hu
      · exact ha
    exact ⟨_, Or.inr rfl, by simp [hu, ha, Layer.fail]⟩

/-- Claim C4, amended, on a concrete call: the other layer holds viewport 1 inside
the tree. -/
theorem set_layer_viewport_conflict_rejected_witness :
    (layer0 env_native).layer_viewport ≠ some 1 ∧
    ((∃ o ∈ [layer_holding_1_in_tree], o.inside_tree = true ∧ o.layer_viewport = some 1) ∨
      (layer0 env_native).use_android_surface = true) ∧
    ∃ e, (e = Err.same_subviewport_with_multiple_layers ∨ e = Err.subviewport_with_android_surface)
      ∧ set_layer_viewport env_native [layer_holding_1_in_tree] viewports0
          (layer0 env_native) (some 1)
        = ({ layer0 env_native with errors := (layer0 env_native).errors ++ [e] }, viewports0) :=
  ⟨by decide, Or.inl ⟨_, List.mem_singleton.mpr rfl, rfl, rfl⟩,
    set_layer_viewport_conflict_rejected env_native _ viewports0 (layer0 env_native) 1 (by decide)
      (Or.inl ⟨_, List.mem_singleton.mpr rfl, rfl, rfl⟩)⟩

/-- Claim C5: with a viewport bound and android-surface mode off,
`set_use_android_surface(true)` ends with `layer_viewport` null and
`use_android_surface` true, and the calls it adds to the trace end with the
provider's `set_use_android_surface(true, android_surface_size)`; before it come
only a register call and the viewport-clearing `set_viewport` with the null handle. -/
theorem set_use_android_surface_clears_viewport_first (env : Env) (others : List Layer)
    (vps : Viewports) (s : Layer) (v : ViewportId) (hv : s.layer_viewport = some v)
    (ha : s.use_android_surface = false) :
    (set_use_android_surface env others vps s true).1.layer_viewport = none ∧
    (set_use_android_surface env others vps s true).1.use_android_surface = true ∧
    ∃ pre : List Call,
      (set_use_android_surface env others vps s true).1.calls
        = s.calls ++ pre ++ [Call.set_use_android_surface true s.android_surface_size] ∧
      ∀ c ∈ pre, c = Call.register_viewport_composition_layer_provider
        ∨ c = Call.set_viewport none (0, 0) := by
  have hcalls : (set_use_android_surface env others vps s true).1.calls
      = s.calls
        ++ ((if !s.registered && is_natively_supported env && s.openxr_session_running
              && s.inside_tree && s.visible && env.composition_layer_extension
            then [Call.register_viewport_composition_layer_provider] else [])
          ++ (if s.fallback.isSome then []
              else if s.openxr_session_running && s.visible && s.inside_tree
                then [Call.set_viewport none (0, 0)] else []))
        ++ [Call.set_use_android_surface true s.android_surface_size] := by
    unfold set_use_android_surface set_layer_viewport
    cases hr : s.registered <;> cases hn : is_natively_supported env <;>
      cases hrun : s.openxr_session_running <;> cases hin : s.inside_tree <;>
      cases hvis : s.visible <;> cases hext : env.composition_layer_extension <;>
      cases hfb : s.fallback <;>
      simp [ha, hv, hr, hn, hrun, hin, hvis, hext, hfb, setup_eq, provider_set_use_android_surface,
        provider_set_viewport, Layer.call]
  refine ⟨?_, ?_, _, hcalls, ?_⟩
  · simp [set_use_android_surface, ha, provider_set_use_android_surface, Layer.call,
      set_layer_viewport_layer_viewport]
  · simp [set_use_android_surface, ha, provider_set_use_android_surface, Layer.call,
      set_layer_viewport_use_android_surface]
  · intro c hc
    simp only [List.mem_append] at hc
    rcases hc with hc | hc
    · split_ifs at hc <;> simp_all
    · split_ifs at hc <;> simp_all

/-- Claim C5 on a concrete layer: visible, inside the tree, session running,
viewport 1 bound. -/
theorem set_use_android_surface_clears_viewport_first_witness :
    layer_bound_in_tree.layer_viewport = some 1 ∧
    layer_bound_in_tree.use_android_surface = false ∧
    (set_use_android_surface env_native [] viewports0 layer_bound_in_tree true).1.layer_viewport
      = none ∧
    (set_use_android_surface env_native [] viewports0 layer_bound_in_tree true).1.use_android_surface
      = true ∧
    ∃ pre : List Call,
      (set_use_android_surface env_native [] viewports0 layer_bound_in_tree true).1.calls
        = layer_bound_in_tree.calls ++ pre
          ++ [Call.set_use_android_surface true layer_bound_in_tree.android_surface_size] ∧
      ∀ c ∈ pre, c = Call.register_viewport_composition_layer_provider
        ∨ c = Call.set_viewport none (0, 0) :=
  ⟨by decide, by decide,
    set_use_android_surface_clears_viewport_first env_native [] viewports0 layer_bound_in_tree 1
      (by decide) (by decide)⟩

/-- Claim C6, the code at the failing input: the runtime does not offer the layer
type, the session begins, a viewport is bound and the layer enters the tree; the
enter-tree path registers it, so `registered` is true on a layer that is not
natively supported. -/
theorem enter_tree_registers_unsupported_layer :
    is_natively_supported env_unsupported = false ∧
    (run env_unsupported ⟨layer0 env_unsupported, viewports0⟩
      [([], .session_begun), ([], .set_layer_viewport (some 1)),
        ([], .enter_tree)]).layer.registered = true := by
  decide

/-- Claim C7, as stated, fails: outside the editor and without a runtime the
policy is true on the freshly constructed layer, which has no fallback. -/
theorem fresh_layer_without_runtime_has_no_fallback :
    _should_use_fallback_node env_no_runtime
      (run env_no_runtime ⟨construct env_no_runtime false (1024, 1024) provider0, viewports0⟩
        []).layer = true ∧
    (run env_no_runtime ⟨construct env_no_runtime false (1024, 1024) provider0, viewports0⟩
      []).layer.fallback = none := by
  decide

/-- Claim C7, amended: in the editor the fallback exists and the policy is true in
every state reachable from construction; outside the editor the fallback is
created on demand, so that right after a session-begun event, and right after a
`set_enable_hole_punch` call that changes the flag, the fallback exists whenever
the policy is true. -/
theorem fallback_exists_where_created (env : Env) (is_running : Bool) (sz : Size2i)
    (prov : Provider) (vps : Viewports) (tr : List (List Layer × Event)) (s : Layer) (b : Bool) :
    (env.is_editor_hint = true →
      ((run env ⟨construct env is_running sz prov, vps⟩ tr).layer.fallback.isSome = true ∧
        _should_use_fallback_node env
          (run env ⟨construct env is_running sz prov, vps⟩ tr).layer = true)) ∧
    (_should_use_fallback_node env (_on_openxr_session_begun env vps s) = true →
      (_on_openxr_session_begun env vps s).fallback.isSome = true) ∧
    (s.enable_hole_punch ≠ b → _should_use_fallback_node env (set_enable_hole_punch env s b) = true →
      (set_enable_hole_punch env s b).fallback.isSome = true) := by
  refine ⟨fun he => ⟨?_, should_use_fallback_in_editor env _ he⟩, ?_, ?_⟩
  · exact run_fallback_in_editor env he tr _
      (by rw [construct_fallback_isSome]; exact he)
  · unfold _on_openxr_session_begun
    simp only []
    split_ifs with h1 h2 h2
    · simp
    · intro hp
      simp only [Bool.and_eq_true, Bool.not_eq_true', not_and, Bool.not_eq_true] at h2
      cases hf : (_setup_composition_layer_provider env vps
          { s with openxr_session_running := true }).fallback.isSome
      · rw [h2 hf] at hp; exact absurd hp (by simp)
      · rfl
    · simp
    · intro hp
      simp only [Bool.and_eq_true, Bool.not_eq_true', not_and, Bool.not_eq_true] at h2
      cases hf : s.fallback.isSome
      · rw [h2 hf] at hp; exact absurd hp (by simp)
      · rfl
  · intro hne
    unfold set_enable_hole_punch
    rw [if_neg hne]
    simp only []
    split_ifs with h1 h2 h2
    · simp [h2]
    · simp
    · intro hp
      have : _should_use_fallback_node env
          (_remove_fallback_node { s with enable_hole_punch := b }) =
          _should_use_fallback_node env { s with enable_hole_punch := b } := by
        simp [_should_use_fallback_node]
      rw [this] at hp
      exact absurd hp h1
    · intro hp
      exact absurd hp h1

/-- Claim C7, amended, on concrete inputs: an editor layer after a session begin
and a viewport binding; a session begin on a layer type the runtime lacks; hole
punch switched on in a running session. -/
theorem fallback_exists_where_created_witness :
    ((run env_editor ⟨construct env_editor false (1024, 1024) provider0, viewports0⟩
        [([], .session_begun), ([], .set_layer_viewport (some 1))]).layer.fallback.isSome = true ∧
      _should_use_fallback_node env_editor
        (run env_editor ⟨construct env_editor false (1024, 1024) provider0, viewports0⟩
          [([], .session_begun), ([], .set_layer_viewport (some 1))]).layer = true) ∧
    (_on_openxr_session_begun env_unsupported viewports0 (layer0 env_unsupported)).fallback.isSome
      = true ∧
    (set_enable_hole_punch env_native (layer0_running env_native) true).fallback.isSome = true :=
  ⟨(fallback_exists_where_created env_editor false (1024, 1024) provider0 viewports0
      [([], .session_begun), ([], .set_layer_viewport (some 1))] (layer0 env_editor) true).1
      (by decide),
    (fallback_exists_where_created env_unsupported false (1024, 1024) provider0 viewports0 []
      (layer0 env_unsupported) true).2.1 (by decide),
    (fallback_exists_where_created env_native false (1024, 1024) provider0 viewports0 []
      (layer0_running env_native) true).2.2 (by decide) (by decide)⟩

/-- Claim C8, the code at the failing input: a layer that is registered (one
register call so far) gets a second visibility-changed notification while still
visible, and the node asks the extension to register its provider a second time. -/
theorem visibility_changed_registers_again :
    layer_bound_in_tree.registered = true ∧
    layer_bound_in_tree.visible = true ∧
    register_calls layer_bound_in_tree = 1 ∧
    register_calls
      (step env_native [] ⟨layer_bound_in_tree, viewports0⟩ (.set_visible true)).layer = 2 := by
  decide

/-- Claim C9, the code at the failing input: without a runtime, with the session
flag set by a session-begun signal and a viewport bound, entering the tree makes
a register call and sets `registered`. -/
theorem enter_tree_registers_without_runtime :
    env_no_runtime.openxr_api = false ∧
    (run env_no_runtime ⟨layer0 env_no_runtime, viewports0⟩
      [([], .session_begun), ([], .set_layer_viewport (some 1)),
        ([], .enter_tree)]).layer.registered = true ∧
    register_calls
      (run env_no_runtime ⟨layer0 env_no_runtime, viewports0⟩
        [([], .session_begun), ([], .set_layer_viewport (some 1)),
          ([], .enter_tree)]).layer = 1 := by
  decide

/-- Claim C10, as stated, fails: outside the editor, natively supported, visible,
inside the tree, hole punch and android surface off, but with no viewport bound,
session-begun makes no register call. -/
theorem session_begun_without_viewport_registers_nothing :
    env_native.is_editor_hint = false ∧
    is_natively_supported env_native = true ∧
    (step env_native [] ⟨layer0 env_native, viewports0⟩ .enter_tree).layer.visible = true ∧
    (step env_native [] ⟨layer0 env_native, viewports0⟩ .enter_tree).layer.inside_tree = true ∧
    (step env_native [] ⟨layer0 env_native, viewports0⟩ .enter_tree).layer.enable_hole_punch
      = false ∧
    (step env_native [] ⟨layer0 env_native, viewports0⟩ .enter_tree).layer.use_android_surface
      = false ∧
    register_calls
      (_on_openxr_session_begun env_native viewports0
        (step env_native [] ⟨layer0 env_native, viewports0⟩ .enter_tree).layer) = 0 := by
  decide

/-- Claim C10, amended: for a layer outside the editor, natively supported,
visible, inside the tree, hole punch and android surface off, with a viewport
bound and no fallback so far, session-begun adds exactly one register call
(followed by the provider's `set_viewport`), sets `registered`, and leaves no
fallback. -/
theorem session_begun_registers_once (env : Env) (vps : Viewports) (s : Layer) (v : ViewportId)
    (he : env.is_editor_hint = false) (hn : is_natively_supported env = true)
    (hvis : s.visible = true) (hin : s.inside_tree = true) (hhp : s.enable_hole_punch = false)
    (ha : s.use_android_surface = false) (hv : s.layer_viewport = some v)
    (hf : s.fallback = none) :
    (_on_openxr_session_begun env vps s).calls
      = s.calls ++ [Call.register_viewport_composition_layer_provider,
          Call.set_viewport (some v) (vps v).size] ∧
    (_on_openxr_session_begun env vps s).registered = true ∧
    (_on_openxr_session_begun env vps s).fallback = none := by
  have hn2 := hn
  unfold is_natively_supported at hn2
  have hext : env.composition_layer_extension = true := by
    cases h : env.composition_layer_extension <;> simp_all
  have hapi : env.openxr_api = true := by
    cases h : env.openxr_api <;> simp_all
  simp [_on_openxr_session_begun, hn, hvis, hin, setup_eq, hv, ha, hext, hf,
    _should_use_fallback_node, he, hapi, hhp]

/-- Claim C10, amended, on a concrete layer: viewport 1 bound before the layer
enters the tree, session not yet running. -/
theorem session_begun_registers_once_witness :
    (_on_openxr_session_begun env_native viewports0 layer_holding_1_in_tree).calls
      = layer_holding_1_in_tree.calls
        ++ [Call.register_viewport_composition_layer_provider,
          Call.set_viewport (some 1) (viewports0 1).size] ∧
    (_on_openxr_session_begun env_native viewports0 layer_holding_1_in_tree).registered = true ∧
    (_on_openxr_session_begun env_native viewports0 layer_holding_1_in_tree).fallback = none :=
  session_begun_registers_once env_native viewports0 layer_holding_1_in_tree 1
    (by decide) (by decide) (by decide) (by decide) (by decide) (by decide) (by decide) (by decide)

/-! ## Swapchain setters, session and tree events, fallback material -/

theorem real_t_eq_self (a : real_t) (h : a ≠ .nan) : a.eq a = true := by
  cases a <;> simp_all [real_t.eq]

/-- Claim C11, as stated, fails: without the compositor extension singleton the
exit-tree notification makes no unregister call. -/
theorem exit_tree_without_extension_makes_no_unregister_call :
    unregister_calls (layer_entered env_no_extension) = 0 ∧
    unregister_calls
      (_notification env_no_extension [] viewports0 (layer_entered env_no_extension)
        .NOTIFICATION_EXIT_TREE) = 0 := by
  decide

/-- Claim C11, amended: for every layer state, registered or not, the exit-tree
notification makes exactly one unregister call and leaves `registered` false when
the compositor extension singleton is present; when it is absent it makes no
unregister call and leaves `registered` as it was. -/
theorem exit_tree_unregisters_once (env : Env) (others : List Layer) (vps : Viewports)
    (s : Layer) :
    (env.composition_layer_extension = true →
      unregister_calls (_notification env others vps s .NOTIFICATION_EXIT_TREE)
        = unregister_calls s + 1 ∧
      (_notification env others vps s .NOTIFICATION_EXIT_TREE).registered = false) ∧
    (env.composition_layer_extension = false →
      unregister_calls (_notification env others vps s .NOTIFICATION_EXIT_TREE)
        = unregister_calls s ∧
      (_notification env others vps s .NOTIFICATION_EXIT_TREE).registered = s.registered) := by
  constructor
  · intro h
    cases hu : s.use_android_surface <;>
      simp [_notification, clear_eq, unregister_calls, h, hu, List.count_append]
  · intro h
    cases hu : s.use_android_surface <;>
      simp [_notification, clear_eq, unregister_calls, h, hu, List.count_append]

/-- Claim C11, amended, on a layer that has just entered the tree, with and without
the extension. -/
theorem exit_tree_unregisters_once_witness :
    (unregister_calls (_notification env_native [] viewports0 (layer_entered env_native)
        .NOTIFICATION_EXIT_TREE) = unregister_calls (layer_entered env_native) + 1 ∧
      (_notification env_native [] viewports0 (layer_entered env_native)
        .NOTIFICATION_EXIT_TREE).registered = false) ∧
    (unregister_calls (_notification env_no_extension [] viewports0 (layer_entered env_no_extension)
        .NOTIFICATION_EXIT_TREE) = unregister_calls (layer_entered env_no_extension) ∧
      (_notification env_no_extension [] viewports0 (layer_entered env_no_extension)
        .NOTIFICATION_EXIT_TREE).registered = (layer_entered env_no_extension).registered) :=
  ⟨(exit_tree_unregisters_once env_native [] viewports0 (layer_entered env_native)).1 (by decide),
    (exit_tree_unregisters_once env_no_extension [] viewports0
      (layer_entered env_no_extension)).2 (by decide)⟩

/-- Claim C12, as stated, fails: with NaN stored as max anisotropy and the dirty
flag false, calling `set_max_anisotropy` with the stored value sets the dirty flag. -/
theorem set_max_anisotropy_nan_marks_dirty :
    swapchain_state_nan.dirty = false ∧
    (set_max_anisotropy swapchain_state_nan (get_max_anisotropy swapchain_state_nan)).dirty
      = true := by
  decide

/-- Claim C12, amended: each of the eleven swapchain-state setters, called with the
value already stored, leaves the whole swapchain state unchanged (a false dirty
flag stays false), provided that for `set_max_anisotropy` the stored value is not
NaN and for `set_border_color` no channel of the stored colour is NaN. -/
theorem setters_same_value_no_op (st : SwapchainState) :
    set_min_filter st st.min_filter = st ∧
    set_mag_filter st st.mag_filter = st ∧
    set_mipmap_mode st st.mipmap_mode = st ∧
    set_horizontal_wrap st st.horizontal_wrap = st ∧
    set_vertical_wrap st st.vertical_wrap = st ∧
    set_red_swizzle st st.red_swizzle = st ∧
    set_green_swizzle st st.green_swizzle = st ∧
    set_blue_swizzle st st.blue_swizzle = st ∧
    set_alpha_swizzle st st.alpha_swizzle = st ∧
    (st.max_anisotropy ≠ .nan → set_max_anisotropy st st.max_anisotropy = st) ∧
    (st.border_color.r ≠ .nan → st.border_color.g ≠ .nan → st.border_color.b ≠ .nan →
      st.border_color.a ≠ .nan → set_border_color st st.border_color = st) := by
  refine ⟨?_, ?_, ?_, ?_, ?_, ?_, ?_, ?_, ?_, ?_, ?_⟩
  · simp [set_min_filter]
  · simp [set_mag_filter]
  · simp [set_mipmap_mode]
  · simp [set_horizontal_wrap]
  · simp [set_vertical_wrap]
  · simp [set_red_swizzle]
  · simp [set_green_swizzle]
  · simp [set_blue_swizzle]
  · simp [set_alpha_swizzle]
  · intro h
    simp [set_max_anisotropy, real_t_eq_self _ h]
  · intro hr hg hb ha
    simp [set_border_color, Color.eq, real_t_eq_self _ hr, real_t_eq_self _ hg,
      real_t_eq_self _ hb, real_t_eq_self _ ha]

/-- Claim C12, amended, on the two float-valued setters of a concrete state. -/
theorem setters_same_value_no_op_witness :
    set_max_anisotropy swapchain_state0 swapchain_state0.max_anisotropy = swapchain_state0 ∧
    set_border_color swapchain_state0 swapchain_state0.border_color = swapchain_state0 :=
  ⟨(setters_same_value_no_op swapchain_state0).2.2.2.2.2.2.2.2.2.1 (by decide),
    (setters_same_value_no_op swapchain_state0).2.2.2.2.2.2.2.2.2.2
      (by decide) (by decide) (by decide) (by decide)⟩

theorem real_t_same_of_eq (a b : real_t) (h : a.eq b = true) :
    a.same_up_to_zero_sign b = true := by
  cases a <;> cases b <;>
    simp_all [real_t.eq, real_t.same_up_to_zero_sign, real_t.is_zero]

theorem real_t_eq_false_of_not_same (a b : real_t) (h : a.same_up_to_zero_sign b = false) :
    a.eq b = false := by
  cases hab : a.eq b
  · rfl
  · rw [real_t_same_of_eq a b hab] at h; exact absurd h (by simp)

theorem color_eq_false_of_not_same (x y : Color) (h : x.same_up_to_zero_sign y = false) :
    x.eq y = false := by
  cases hxy : x.eq y
  · rfl
  · simp only [Color.eq, Bool.and_eq_true] at hxy
    obtain ⟨⟨⟨hr, hg⟩, hb⟩, ha⟩ := hxy
    simp [Color.same_up_to_zero_sign, real_t_same_of_eq _ _ hr, real_t_same_of_eq _ _ hg,
      real_t_same_of_eq _ _ hb, real_t_same_of_eq _ _ ha] at h

/-- Claim C13, as stated, fails: a colour that differs from the stored border
colour only in the sign of a zero channel is a different value, yet
`set_border_color` leaves the dirty flag false and the getter does not return it. -/
theorem set_border_color_ignores_sign_of_zero :
    color_neg_zero_red ≠ get_border_color swapchain_state0 ∧
    (set_border_color swapchain_state0 color_neg_zero_red).dirty = false ∧
    get_border_color (set_border_color swapchain_state0 color_neg_zero_red)
      ≠ color_neg_zero_red := by
  decide

/-- Claim C13, amended: each of the eleven swapchain-state setters, called with a
value different from the stored one - for `set_max_anisotropy` and
`set_border_color`: different by more than the sign of a zero - results in
`dirty == true`, the matching getter returning the new value, and every other
field of the swapchain state unchanged. -/
theorem setters_new_value_marks_dirty (st : SwapchainState) (f : Filter) (m : MipmapMode)
    (w : Wrap) (z : Swizzle) (x : real_t) (c : Color) :
    (f ≠ st.min_filter →
      set_min_filter st f = { st with min_filter := f, dirty := true } ∧
      get_min_filter (set_min_filter st f) = f) ∧
    (f ≠ st.mag_filter →
      set_mag_filter st f = { st with mag_filter := f, dirty := true } ∧
      get_mag_filter (set_mag_filter st f) = f) ∧
    (m ≠ st.mipmap_mode →
      set_mipmap_mode st m = { st with mipmap_mode := m, dirty := true } ∧
      get_mipmap_mode (set_mipmap_mode st m) = m) ∧
    (w ≠ st.horizontal_wrap →
      set_horizontal_wrap st w = { st with horizontal_wrap := w, dirty := true } ∧
      get_horizontal_wrap (set_horizontal_wrap st w) = w) ∧
    (w ≠ st.vertical_wrap →
      set_vertical_wrap st w = { st with vertical_wrap := w, dirty := true } ∧
      get_vertical_wrap (set_vertical_wrap st w) = w) ∧
    (z ≠ st.red_swizzle →
      set_red_swizzle st z = { st with red_swizzle := z, dirty := true } ∧
      get_red_swizzle (set_red_swizzle st z) = z) ∧
    (z ≠ st.green_swizzle →
      set_green_swizzle st z = { st with green_swizzle := z, dirty := true } ∧
      get_green_swizzle (set_green_swizzle st z) = z) ∧
    (z ≠ st.blue_swizzle →
      set_blue_swizzle st z = { st with blue_swizzle := z, dirty := true } ∧
      get_blue_swizzle (set_blue_swizzle st z) = z) ∧
    (z ≠ st.alpha_swizzle →
      set_alpha_swizzle st z = { st with alpha_swizzle := z, dirty := true } ∧
      get_alpha_swizzle (set_alpha_swizzle st z) = z) ∧
    (st.max_anisotropy.same_up_to_zero_sign x = false →
      set_max_anisotropy st x = { st with max_anisotropy := x, dirty := true } ∧
      get_max_anisotropy (set_max_anisotropy st x) = x) ∧
    (st.border_color.same_up_to_zero_sign c = false →
      set_border_color st c = { st with border_color := c, dirty := true } ∧
      get_border_color (set_border_color st c) = c) := by
  refine ⟨?_, ?_, ?_, ?_, ?_, ?_, ?_, ?_, ?_, ?_, ?_⟩
  · intro h; simp [set_min_filter, get_min_filter, Ne.symm h]
  · intro h; simp [set_mag_filter, get_mag_filter, Ne.symm h]
  · intro h; simp [set_mipmap_mode, get_mipmap_mode, Ne.symm h]
  · intro h; simp [set_horizontal_wrap, get_horizontal_wrap, Ne.symm h]
  · intro h; simp [set_vertical_wrap, get_vertical_wrap, Ne.symm h]
  · intro h; simp [set_red_swizzle, get_red_swizzle, Ne.symm h]
  · intro h; simp [set_green_swizzle, get_green_swizzle, Ne.symm h]
  · intro h; simp [set_blue_swizzle, get_blue_swizzle, Ne.symm h]
  · intro h; simp [set_alpha_swizzle, get_alpha_swizzle, Ne.symm h]
  · intro h
    simp [set_max_anisotropy, get_max_anisotropy, real_t_eq_false_of_not_same _ _ h]
  · intro h
    simp [set_border_color, get_border_color, color_eq_false_of_not_same _ _ h]

/-- Claim C13, amended, on a filter, an anisotropy and a colour with a NaN channel. -/
theorem setters_new_value_marks_dirty_witness :
    (set_min_filter swapchain_state0 .FILTER_CUBIC).dirty = true ∧
    get_max_anisotropy (set_max_anisotropy swapchain_state0 (.fin 4)) = .fin 4 ∧
    get_border_color (set_border_color swapchain_state0 ⟨.fin 1, .fin 0, .fin 0, .nan⟩)
      = ⟨.fin 1, .fin 0, .fin 0, .nan⟩ :=
  ⟨by
      rw [((setters_new_value_marks_dirty swapchain_state0 .FILTER_CUBIC .MIPMAP_MODE_LINEAR
        .WRAP_REPEAT .SWIZZLE_ONE (.fin 4) ⟨.fin 1, .fin 0, .fin 0, .nan⟩).1 (by decide)).1],
    ((setters_new_value_marks_dirty swapchain_state0 .FILTER_CUBIC .MIPMAP_MODE_LINEAR
      .WRAP_REPEAT .SWIZZLE_ONE (.fin 4) ⟨.fin 1, .fin 0, .fin 0, .nan⟩).2.2.2.2.2.2.2.2.2.1
      (by decide)).2,
    ((setters_new_value_marks_dirty swapchain_state0 .FILTER_CUBIC .MIPMAP_MODE_LINEAR
      .WRAP_REPEAT .SWIZZLE_ONE (.fin 4) ⟨.fin 1, .fin 0, .fin 0, .nan⟩).2.2.2.2.2.2.2.2.2.2
      (by decide)).2⟩

/-- Claim C14, the code at the failing input: hole punch is on and the session has
begun, so a fallback exists; on session-stopping the policy turns false,
`_remove_fallback_node` fires its guard and returns, and the fallback is still there. -/
theorem session_stopping_leaves_fallback :
    layer_hole_punch_running.fallback.isSome = true ∧
    _should_use_fallback_node env_native
      (_on_openxr_session_stopping env_native layer_hole_punch_running) = false ∧
    (_on_openxr_session_stopping env_native layer_hole_punch_running).fallback.isSome = true ∧
    (_on_openxr_session_stopping env_native layer_hole_punch_running).errors
      = [Err.remove_fallback_node_fallback_not_null] := by
  decide

/-- Claim C15, as stated, fails: natively supported, visible and inside the tree,
but with neither viewport nor android surface, the layer is not registered after
session-begun. -/
theorem session_begun_without_viewport_leaves_unregistered :
    is_natively_supported env_native = true ∧
    (layer_entered env_native).visible = true ∧
    (layer_entered env_native).inside_tree = true ∧
    (_on_openxr_session_begun env_native viewports0 (layer_entered env_native)).registered
      = false := by
  decide

/-- Claim C15, amended: after the session-begun event `openxr_session_running` is
true; if the layer is natively supported, visible, inside the tree and has a
viewport bound or uses an android surface, then `registered` is true; and if the
fallback policy evaluates true in the resulting state, a fallback exists. -/
theorem session_begun_effect (env : Env) (vps : Viewports) (s : Layer) :
    (_on_openxr_session_begun env vps s).openxr_session_running = true ∧
    (is_natively_supported env = true → s.visible = true → s.inside_tree = true →
      (s.use_android_surface = true ∨ s.layer_viewport ≠ none) →
      (_on_openxr_session_begun env vps s).registered = true) ∧
    (_should_use_fallback_node env (_on_openxr_session_begun env vps s) = true →
      (_on_openxr_session_begun env vps s).fallback.isSome = true) := by
  refine ⟨?_, ?_, ?_⟩
  · unfold _on_openxr_session_begun
    simp only []
    split_ifs <;> simp
  · intro hn hvis hin hb
    have hext : env.composition_layer_extension = true := by
      unfold is_natively_supported at hn
      cases h : env.composition_layer_extension <;> simp_all
    have hb2 : (s.use_android_surface || s.layer_viewport.isSome) = true := by
      rcases hb with h | h
      · simp [h]
      · cases hv : s.layer_viewport
        · exact absurd hv h
        · simp
    unfold _on_openxr_session_begun
    simp only [hn, hvis, hin, Bool.and_self, if_true]
    split_ifs <;> simp [hb2, hext]
  · unfold _on_openxr_session_begun
    simp only []
    split_ifs with h1 h2 h2
    · simp
    · intro hp
      simp only [Bool.and_eq_true, Bool.not_eq_true', not_and, Bool.not_eq_true] at h2
      cases hf : (_setup_composition_layer_provider env vps
          { s with openxr_session_running := true }).fallback.isSome
      · rw [h2 hf] at hp; exact absurd hp (by simp)
      · rfl
    · simp
    · intro hp
      simp only [Bool.and_eq_true, Bool.not_eq_true', not_and, Bool.not_eq_true] at h2
      cases hf : s.fallback.isSome
      · rw [h2 hf] at hp; exact absurd hp (by simp)
      · rfl

/-- Claim C15, amended, on a layer that holds viewport 1 inside the tree and on a
layer of a type the runtime lacks. -/
theorem session_begun_effect_witness :
    (_on_openxr_session_begun env_native viewports0 layer_holding_1_in_tree).registered = true ∧
    (_on_openxr_session_begun env_unsupported viewports0
      (layer0 env_unsupported)).fallback.isSome = true :=
  ⟨(session_begun_effect env_native viewports0 layer_holding_1_in_tree).2.1
      (by decide) (by decide) (by decide) (Or.inr (by decide)),
    (session_begun_effect env_unsupported viewports0 (layer0 env_unsupported)).2.2 (by decide)⟩

theorem step_set_visible_visible (env : Env) (others : List Layer) (w : World) (v : Bool) :
    (step env others w (.set_visible v)).layer.visible = v := by
  simp only [step, _notification]
  split_ifs <;> simp

theorem construct_registered_is_active (env : Env) (is_running : Bool) (sz : Size2i)
    (prov : Provider) : registered_is_active (construct env is_running sz prov) := by
  intro h
  rw [construct_registered] at h
  exact absurd h (by simp)

/-- Claim C16: on a natively supported layer, after a visibility-changed
notification with the layer now hidden `registered` is false in every state
reachable from construction; and in every state with the session running and the
layer inside the tree the notification makes one unregister call and leaves
`registered` false. -/
theorem hiding_unregisters (env : Env) (hn : is_natively_supported env = true)
    (is_running : Bool) (sz : Size2i) (prov : Provider) (vps : Viewports)
    (tr : List (List Layer × Event)) (others : List Layer) (s : Layer) :
    (step env others (run env ⟨construct env is_running sz prov, vps⟩ tr)
      (.set_visible false)).layer.registered = false ∧
    (s.openxr_session_running = true → s.inside_tree = true →
      (_notification env others vps { s with visible := false }
        .NOTIFICATION_VISIBILITY_CHANGED).registered = false ∧
      unregister_calls (_notification env others vps { s with visible := false }
        .NOTIFICATION_VISIBILITY_CHANGED) = unregister_calls s + 1) := by
  have hext : env.composition_layer_extension = true := by
    unfold is_natively_supported at hn
    cases h : env.composition_layer_extension <;> simp_all
  constructor
  · have h1 := run_registered_is_active env hn tr ⟨construct env is_running sz prov, vps⟩
      (construct_registered_is_active env is_running sz prov)
    have h2 := step_registered_is_active env others _ (.set_visible false) hn h1
    cases hr : (step env others (run env ⟨construct env is_running sz prov, vps⟩ tr)
        (.set_visible false)).layer.registered
    · rfl
    · have := (h2 hr).1
      rw [step_set_visible_visible] at this
      exact absurd this (by simp)
  · intro hrun hin
    cases hu : s.use_android_surface <;>
      simp [_notification, hn, hrun, hin, clear_eq, hext, unregister_calls, hu,
        List.count_append]

/-- Claim C16 on the layer that registered with viewport 1 on entering the tree. -/
theorem hiding_unregisters_witness :
    (step env_native [] (run env_native ⟨construct env_native true (1024, 1024) provider0,
        viewports0⟩ [([], .set_layer_viewport (some 1)), ([], .enter_tree)])
      (.set_visible false)).layer.registered = false ∧
    ((_notification env_native [] viewports0 { layer_bound_in_tree with visible := false }
        .NOTIFICATION_VISIBILITY_CHANGED).registered = false ∧
      unregister_calls (_notification env_native [] viewports0
        { layer_bound_in_tree with visible := false } .NOTIFICATION_VISIBILITY_CHANGED)
        = unregister_calls layer_bound_in_tree + 1) :=
  ⟨(hiding_unregisters env_native (by decide) true (1024, 1024) provider0 viewports0
      [([], .set_layer_viewport (some 1)), ([], .enter_tree)] [] layer_bound_in_tree).1,
    (hiding_unregisters env_native (by decide) true (1024, 1024) provider0 viewports0
      [([], .set_layer_viewport (some 1)), ([], .enter_tree)] [] layer_bound_in_tree).2
      (by decide) (by decide)⟩

theorem bound_viewport_in_use_of_holder (others : List Layer) (s : Layer)
    (h : ∃ v, s.layer_viewport = some v ∧
      ∃ o ∈ others, o.inside_tree = true ∧ o.layer_viewport = some v) :
    bound_viewport_in_use others s = true := by
  obtain ⟨v, hv, o, ho, h1, h2⟩ := h
  simp only [bound_viewport_in_use, hv, is_viewport_in_use]
  exact List.any_eq_true.mpr ⟨o, ho, by simp [h1, h2]⟩

theorem notification_enter_tree_eq (env : Env) (others : List Layer) (vps : Viewports)
    (s : Layer) :
    _notification env others vps s .NOTIFICATION_ENTER_TREE =
      if bound_viewport_in_use others s then _clear_composition_layer_provider env s
      else if s.openxr_session_running && s.visible then
        _setup_composition_layer_provider env vps s
      else s := by
  simp only [_notification, bound_viewport_in_use]

/-- Claim C17, as stated, fails: the layer's bound viewport 1 is also the viewport of
another layer, which is outside the tree; on enter-tree the layer is registered
and a register call is made. -/
theorem enter_tree_registers_despite_detached_holder :
    layer_running_holding_1.layer_viewport = some 1 ∧
    layer_holding_1.layer_viewport = some 1 ∧
    (step env_native [layer_holding_1] ⟨layer_running_holding_1, viewports0⟩
      .enter_tree).layer.registered = true ∧
    register_calls (step env_native [layer_holding_1] ⟨layer_running_holding_1, viewports0⟩
      .enter_tree).layer = 1 := by
  decide

/-- Claim C17, amended: on the enter-tree notification, if the layer's bound
viewport is the viewport of another layer that is inside the tree, then (with the
extension present) one unregister call is made, `registered` is false afterwards
and no register call is made; otherwise, if the session is running and the layer
is visible, then one register call is made and `registered` is true provided the
layer has a viewport bound or uses an android surface and the extension is
present, and nothing changes when it has neither; otherwise nothing changes. -/
theorem enter_tree_effect (env : Env) (others : List Layer) (vps : Viewports) (s : Layer) :
    ((∃ v, s.layer_viewport = some v ∧
        ∃ o ∈ others, o.inside_tree = true ∧ o.layer_viewport = some v) →
      env.composition_layer_extension = true →
      (_notification env others vps s .NOTIFICATION_ENTER_TREE).registered = false ∧
      unregister_calls (_notification env others vps s .NOTIFICATION_ENTER_TREE)
        = unregister_calls s + 1 ∧
      register_calls (_notification env others vps s .NOTIFICATION_ENTER_TREE)
        = register_calls s) ∧
    (bound_viewport_in_use others s = false →
      s.openxr_session_running = true → s.visible = true →
      (s.use_android_surface = true ∨ s.layer_viewport ≠ none) →
      env.composition_layer_extension = true →
      (_notification env others vps s .NOTIFICATION_ENTER_TREE).registered = true ∧
      register_calls (_notification env others vps s .NOTIFICATION_ENTER_TREE)
        = register_calls s + 1) ∧
    (bound_viewport_in_use others s = false →
      s.openxr_session_running = true → s.visible = true →
      s.use_android_surface = false → s.layer_viewport = none →
      _notification env others vps s .NOTIFICATION_ENTER_TREE = s) ∧
    (bound_viewport_in_use others s = false →
      ¬ (s.openxr_session_running = true ∧ s.visible = true) →
      _notification env others vps s .NOTIFICATION_ENTER_TREE = s) := by
  rw [notification_enter_tree_eq]
  refine ⟨?_, ?_, ?_, ?_⟩
  · intro h hext
    rw [if_pos (bound_viewport_in_use_of_holder others s h)]
    cases hu : s.use_android_surface <;>
      simp [clear_eq, hext, hu, unregister_calls, register_calls, List.count_append]
  · intro hb hrun hvis hv hext
    have hb2 : (s.use_android_surface || s.layer_viewport.isSome) = true := by
      rcases hv with h | h
      · simp [h]
      · cases hv : s.layer_viewport
        · exact absurd hv h
        · simp
    simp only [hb, hrun, hvis, Bool.and_self, if_true, Bool.false_eq_true, if_false]
    rw [setup_eq, if_pos hb2]
    cases hv2 : s.layer_viewport <;>
      simp [hext, register_calls, List.count_append]
  · intro hb hrun hvis hu hv
    simp [hb, hrun, hvis, setup_eq, hu, hv]
  · intro hb hn
    have : (s.openxr_session_running && s.visible) = false := by
      cases h1 : s.openxr_session_running <;> cases h2 : s.visible <;> simp_all
    simp [hb, this]

/-- Claim C17, amended, on concrete layers: a holder inside the tree, no holder, no
viewport, session not running. -/
theorem enter_tree_effect_witness :
    ((step env_native [layer_holding_1_in_tree] ⟨layer_running_holding_1, viewports0⟩
        .enter_tree).layer.registered = false) ∧
    ((_notification env_native [] viewports0 { layer_running_holding_1 with inside_tree := true }
        .NOTIFICATION_ENTER_TREE).registered = true) ∧
    (_notification env_native [] viewports0 (layer0_running env_native) .NOTIFICATION_ENTER_TREE
      = layer0_running env_native) ∧
    (_notification env_native [] viewports0 layer_holding_1 .NOTIFICATION_ENTER_TREE
      = layer_holding_1) :=
  ⟨((enter_tree_effect env_native [layer_holding_1_in_tree] viewports0
        { layer_running_holding_1 with inside_tree := true }).1
        ⟨1, by decide, _, List.mem_singleton.mpr rfl, by decide, by decide⟩ (by decide)).1,
    ((enter_tree_effect env_native [] viewports0
        { layer_running_holding_1 with inside_tree := true }).2.1
        (by decide) (by decide) (by decide) (Or.inr (by decide)) (by decide)).1,
    (enter_tree_effect env_native [] viewports0 (layer0_running env_native)).2.2.1
        (by decide) (by decide) (by decide) (by decide) (by decide),
    (enter_tree_effect env_native [] viewports0 layer_holding_1).2.2.2
        (by decide) (by decide)⟩

/-- Claim C18, as stated, fails: `set_layer_viewport(v)` with `v` the viewport already
bound returns at once without an error, and an update mode `UPDATE_WHEN_VISIBLE`
that `v` has by then stays. -/
theorem set_layer_viewport_same_viewport_keeps_update_mode :
    layer_holding_1.layer_viewport = some 1 ∧
    (set_layer_viewport env_native [] viewports_when_visible layer_holding_1
      (some 1)).1.layer_viewport = some 1 ∧
    (set_layer_viewport env_native [] viewports_when_visible layer_holding_1
      (some 1)).1.errors = layer_holding_1.errors ∧
    ((set_layer_viewport env_native [] viewports_when_visible layer_holding_1
      (some 1)).2 1).update_mode = .UPDATE_WHEN_VISIBLE := by
  decide

/-- Claim C18, amended: for every `set_layer_viewport(v)` with `v` non-null and
different from the current viewport that passes the guards (`v` not in use, no
android surface), `v` is bound and afterwards its update mode is neither
`UPDATE_WHEN_VISIBLE` nor `UPDATE_WHEN_PARENT_VISIBLE`: it is `UPDATE_ALWAYS` if it
was one of those two, and unchanged otherwise. -/
theorem set_layer_viewport_forces_update_always (env : Env) (others : List Layer)
    (vps : Viewports) (s : Layer) (v : ViewportId) (hne : s.layer_viewport ≠ some v)
    (hu : is_viewport_in_use others v = false) (ha : s.use_android_surface = false) :
    (set_layer_viewport env others vps s (some v)).1.layer_viewport = some v ∧
    ((set_layer_viewport env others vps s (some v)).2 v).update_mode
      = (if (vps v).update_mode = .UPDATE_WHEN_VISIBLE
            ∨ (vps v).update_mode = .UPDATE_WHEN_PARENT_VISIBLE
          then .UPDATE_ALWAYS else (vps v).update_mode) ∧
    ((set_layer_viewport env others vps s (some v)).2 v).update_mode ≠ .UPDATE_WHEN_VISIBLE ∧
    ((set_layer_viewport env others vps s (some v)).2 v).update_mode
      ≠ .UPDATE_WHEN_PARENT_VISIBLE := by
  have hmode : ((set_layer_viewport env others vps s (some v)).2 v).update_mode
      = (if (vps v).update_mode = .UPDATE_WHEN_VISIBLE
            ∨ (vps v).update_mode = .UPDATE_WHEN_PARENT_VISIBLE
          then .UPDATE_ALWAYS else (vps v).update_mode) := by
    unfold set_layer_viewport
    simp only [if_neg hne, hu, ha, Bool.false_and, Bool.false_eq_true, if_false]
    simp only [apply_ite Layer.layer_viewport, setup_layer_viewport, ite_self]
    split_ifs <;> simp [Viewports.set_update_mode]
  refine ⟨?_, hmode, ?_, ?_⟩
  · rw [set_layer_viewport_layer_viewport]
    simp [hu, ha]
  · rw [hmode]; split_ifs with h
    · decide
    · exact fun h2 => h (Or.inl h2)
  · rw [hmode]; split_ifs with h
    · decide
    · exact fun h2 => h (Or.inr h2)

/-- Claim C18, amended, on a fresh layer and a viewport that updates when visible. -/
theorem set_layer_viewport_forces_update_always_witness :
    (set_layer_viewport env_native [] viewports_when_visible (layer0 env_native)
      (some 1)).1.layer_viewport = some 1 ∧
    ((set_layer_viewport env_native [] viewports_when_visible (layer0 env_native)
      (some 1)).2 1).update_mode
      = (if (viewports_when_visible 1).update_mode = .UPDATE_WHEN_VISIBLE
            ∨ (viewports_when_visible 1).update_mode = .UPDATE_WHEN_PARENT_VISIBLE
          then .UPDATE_ALWAYS else (viewports_when_visible 1).update_mode) ∧
    ((set_layer_viewport env_native [] viewports_when_visible (layer0 env_native)
      (some 1)).2 1).update_mode ≠ .UPDATE_WHEN_VISIBLE ∧
    ((set_layer_viewport env_native [] viewports_when_visible (layer0 env_native)
      (some 1)).2 1).update_mode ≠ .UPDATE_WHEN_PARENT_VISIBLE :=
  set_layer_viewport_forces_update_always env_native [] viewports_when_visible
    (layer0 env_native) 1 (by decide) (by decide) (by decide)

theorem reset_fallback_node_made (env : Env) (s : Layer)
    (h : fallback_node_made s.fallback = true) :
    fallback_node_made (_reset_fallback_material env s).fallback = true := by
  unfold _reset_fallback_material
  repeat' split
  all_goals simp_all [Layer.fail, fallback_node_made, Material.node_made]

theorem create_fallback_node_made (s : Layer) (h : fallback_node_made s.fallback = true) :
    fallback_node_made (_create_fallback_node s).fallback = true := by
  unfold _create_fallback_node
  split <;> simp_all [Layer.fail, fallback_node_made]

theorem set_layer_viewport_fallback_node_made (env : Env) (others : List Layer)
    (vps : Viewports) (s : Layer) (p : Option ViewportId)
    (h : fallback_node_made s.fallback = true) :
    fallback_node_made (set_layer_viewport env others vps s p).1.fallback = true := by
  unfold set_layer_viewport
  split_ifs
  · exact h
  · exact h
  · exact h
  · simp only []
    split_ifs
    all_goals
      first
      | exact h
      | (apply reset_fallback_node_made; simpa using h)
      | (split <;> simpa [provider_set_viewport, Layer.call] using h)
      | simpa using h

theorem set_use_android_surface_fallback_node_made (env : Env) (others : List Layer)
    (vps : Viewports) (s : Layer) (b : Bool) (h : fallback_node_made s.fallback = true) :
    fallback_node_made (set_use_android_surface env others vps s b).1.fallback = true := by
  unfold set_use_android_surface
  by_cases hu : s.use_android_surface = b
  · rw [if_pos hu]; exact h
  · rw [if_neg hu]
    cases b
    · simpa [provider_set_use_android_surface, Layer.call] using h
    · have := set_layer_viewport_fallback_node_made env others vps
        { s with use_android_surface := true } none h
      simpa [provider_set_use_android_surface, Layer.call] using this

theorem step_fallback_node_made (env : Env) (others : List Layer) (w : World) (e : Event)
    (h : fallback_node_made w.layer.fallback = true) :
    fallback_node_made (step env others w e).layer.fallback = true := by
  cases e
  case set_use_android_surface b =>
    exact set_use_android_surface_fallback_node_made env others _ _ b h
  case set_layer_viewport p =>
    exact set_layer_viewport_fallback_node_made env others _ _ p h
  case session_begun =>
    simp only [step, _on_openxr_session_begun]
    split_ifs
    all_goals
      first
      | exact h
      | (apply create_fallback_node_made; simpa using h)
      | simpa using h
  case session_stopping =>
    simp only [step, _on_openxr_session_stopping]
    split_ifs <;> simpa using h
  case set_enable_hole_punch b =>
    simp only [step, set_enable_hole_punch]
    split_ifs
    all_goals
      first
      | exact h
      | (apply reset_fallback_node_made; simpa using h)
      | (apply create_fallback_node_made; simpa using h)
      | simpa using h
  case set_alpha_blend b =>
    simp only [step, set_alpha_blend]
    split_ifs
    · apply reset_fallback_node_made; simpa [Layer.call] using h
    · simpa [Layer.call] using h
  case internal_process =>
    simp only [step, _notification]
    split
    · split_ifs
      · simp only []
        apply reset_fallback_node_made
        simp_all [fallback_node_made]
      · exact h
    · exact h
  all_goals
    simp only [step, _notification, set_android_surface_size, set_sort_order,
      update_fallback_mesh, set_swapchain_state]
    repeat' split
    all_goals simp_all [provider_set_use_android_surface, Layer.call]

theorem run_fallback_node_made (env : Env) (tr : List (List Layer × Event)) :
    ∀ w : World, fallback_node_made w.layer.fallback = true →
      fallback_node_made (run env w tr).layer.fallback = true := by
  induction tr with
  | nil => intro w h; exact h
  | cons oe rest ih =>
    intro w h
    obtain ⟨others, e⟩ := oe
    exact ih _ (step_fallback_node_made env others w e h)

theorem construct_fallback_node_made (env : Env) (is_running : Bool) (sz : Size2i)
    (prov : Provider) : fallback_node_made (construct env is_running sz prov).fallback = true := by
  unfold construct
  cases env.is_editor_hint <;> simp [_create_fallback_node, fallback_node_made]

theorem reset_fallback_material_of_node_made (env : Env) (s : Layer) (fb : MeshInstance3D)
    (hf : s.fallback = some fb) (hm : fb.has_mesh = true)
    (h : fallback_node_made s.fallback = true) :
    _reset_fallback_material env s =
      { s with fallback := some { fb with
          surface_override_material := spec_fallback_material env s } } := by
  obtain ⟨vp, uas, sz, hp, reg, running, fbo, upd, vis, ins, prov, calls, errs⟩ := s
  obtain ⟨mesh, mat⟩ := fb
  simp only at hf hm
  subst hf hm
  simp only [_reset_fallback_material, spec_fallback_material, get_alpha_blend]
  simp only [fallback_node_made] at h
  cases hc : (hp && !env.is_editor_hint && is_natively_supported env)
  · rcases vp with _ | v
    · simp [hc]
    · rcases mat with _ | m
      · simp [hc]
      · cases m
        · simp [hc]
        · simp_all [Material.node_made]
  · rcases mat with _ | m
    · simp [hc]
    · cases m <;> simp [hc]

/-- Claim C19: in every state reachable from construction whose fallback has a
mesh, `_reset_fallback_material` changes nothing but the override material, which
becomes the three-way choice of `spec_fallback_material`: the cutout shader when
hole punch is on, outside the editor, natively supported; else, with a viewport
bound, the unshaded viewport-texture material with depth test disabled iff hole
punch is off and alpha transparency iff `alpha_blend`; else none. -/
theorem reset_fallback_material_three_way (env : Env) (is_running : Bool) (sz : Size2i)
    (prov : Provider) (vps : Viewports) (tr : List (List Layer × Event)) (fb : MeshInstance3D)
    (hf : (run env ⟨construct env is_running sz prov, vps⟩ tr).layer.fallback = some fb)
    (hm : fb.has_mesh = true) :
    _reset_fallback_material env (run env ⟨construct env is_running sz prov, vps⟩ tr).layer =
      { (run env ⟨construct env is_running sz prov, vps⟩ tr).layer with
        fallback := some { fb with
          surface_override_material :=
            spec_fallback_material env
              (run env ⟨construct env is_running sz prov, vps⟩ tr).layer } } :=
  reset_fallback_material_of_node_made env _ fb hf hm
    (run_fallback_node_made env tr ⟨construct env is_running sz prov, vps⟩
      (construct_fallback_node_made env is_running sz prov))

/-- Claim C19 on a layer of an unsupported type with a fallback mesh and viewport 1
bound. -/
theorem reset_fallback_material_three_way_witness :
    _reset_fallback_material env_unsupported
      (run env_unsupported ⟨construct env_unsupported false (1024, 1024) provider0, viewports0⟩
        [([], .session_begun), ([], .internal_process),
          ([], .set_layer_viewport (some 1))]).layer =
      { (run env_unsupported
          ⟨construct env_unsupported false (1024, 1024) provider0, viewports0⟩
          [([], .session_begun), ([], .internal_process),
            ([], .set_layer_viewport (some 1))]).layer with
        fallback := some
          { has_mesh := true
            surface_override_material :=
              spec_fallback_material env_unsupported
                (run env_unsupported
                  ⟨construct env_unsupported false (1024, 1024) provider0, viewports0⟩
                  [([], .session_begun), ([], .internal_process),
                    ([], .set_layer_viewport (some 1))]).layer } } :=
  reset_fallback_material_three_way env_unsupported false (1024, 1024) provider0 viewports0
    [([], .session_begun), ([], .internal_process), ([], .set_layer_viewport (some 1))]
    ⟨true, some (.standard true true false (some 1))⟩ (by decide) rfl

theorem setup_registration_trace_no_extension (env : Env)
    (hx : env.composition_layer_extension = false) (vps : Viewports) (s : Layer) :
    registration_trace (_setup_composition_layer_provider env vps s) = registration_trace s := by
  rw [setup_eq]
  cases hv : s.layer_viewport <;> split_ifs <;>
    simp_all [registration_trace, register_calls, unregister_calls, List.count_append]

theorem clear_registration_trace_no_extension (env : Env)
    (hx : env.composition_layer_extension = false) (s : Layer) :
    registration_trace (_clear_composition_layer_provider env s) = registration_trace s := by
  rw [clear_eq]
  cases hu : s.use_android_surface <;>
    simp [registration_trace, register_calls, unregister_calls, hx, hu, List.count_append]

theorem reset_registration_trace (env : Env) (s : Layer) :
    registration_trace (_reset_fallback_material env s) = registration_trace s := by
  simp [registration_trace, register_calls, unregister_calls]

theorem create_fallback_registration_trace (s : Layer) :
    registration_trace (_create_fallback_node s) = registration_trace s := by
  simp [registration_trace, register_calls, unregister_calls]

theorem remove_fallback_registration_trace (s : Layer) :
    registration_trace (_remove_fallback_node s) = registration_trace s := by
  simp [registration_trace, register_calls, unregister_calls]

theorem provider_set_viewport_registration_trace (s : Layer) (rid : Option ViewportId)
    (sz : Size2i) :
    registration_trace (provider_set_viewport s rid sz) = registration_trace s := by
  simp [registration_trace, register_calls, unregister_calls, provider_set_viewport, Layer.call,
    List.count_append]

theorem provider_set_use_android_surface_registration_trace (s : Layer) (b : Bool)
    (sz : Size2i) :
    registration_trace (provider_set_use_android_surface s b sz) = registration_trace s := by
  simp [registration_trace, register_calls, unregister_calls, provider_set_use_android_surface,
    Layer.call, List.count_append]

theorem is_natively_supported_no_extension (env : Env)
    (hx : env.composition_layer_extension = false) : is_natively_supported env = false := by
  simp [is_natively_supported, hx]

theorem set_layer_viewport_registration_trace_no_extension (env : Env)
    (hx : env.composition_layer_extension = false) (others : List Layer) (vps : Viewports)
    (s : Layer) (p : Option ViewportId) :
    registration_trace (set_layer_viewport env others vps s p).1 = registration_trace s := by
  unfold set_layer_viewport
  simp only [is_natively_supported_no_extension env hx, Bool.and_false, Bool.false_and,
    Bool.false_eq_true, if_false]
  split_ifs
  all_goals
    first
    | rfl
    | (rw [reset_registration_trace]; rfl)
    | (split <;> (rw [provider_set_viewport_registration_trace]; rfl))

theorem step_registration_trace_no_extension (env : Env)
    (hx : env.composition_layer_extension = false) (others : List Layer) (w : World)
    (e : Event) :
    registration_trace (step env others w e).layer = registration_trace w.layer := by
  have hn := is_natively_supported_no_extension env hx
  cases e
  case set_layer_viewport p =>
    exact set_layer_viewport_registration_trace_no_extension env hx others _ _ p
  case set_use_android_surface b =>
    simp only [step, set_use_android_surface]
    split_ifs
    · rfl
    · rw [provider_set_use_android_surface_registration_trace,
        set_layer_viewport_registration_trace_no_extension env hx]; rfl
    · rw [provider_set_use_android_surface_registration_trace]; rfl
  case session_begun =>
    simp only [step, _on_openxr_session_begun, hn, Bool.false_and, Bool.false_eq_true, if_false]
    split_ifs
    · rw [create_fallback_registration_trace]; rfl
    · rfl
  case session_stopping =>
    simp only [step, _on_openxr_session_stopping]
    rw [clear_registration_trace_no_extension env hx]
    split_ifs
    · rw [remove_fallback_registration_trace]; rfl
    · rfl
  case enter_tree =>
    simp only [step, _notification]
    split_ifs
    · rw [clear_registration_trace_no_extension env hx]; rfl
    · rw [setup_registration_trace_no_extension env hx]; rfl
    · rfl
  case exit_tree =>
    simp only [step, _notification]
    have := clear_registration_trace_no_extension env hx w.layer
    simpa [registration_trace, register_calls, unregister_calls] using this
  case set_visible v =>
    simp only [step, _notification, hn, Bool.false_and, Bool.false_eq_true, if_false]
    rfl
  case set_enable_hole_punch b =>
    simp only [step, set_enable_hole_punch]
    split_ifs
    all_goals
      first
      | rfl
      | (rw [reset_registration_trace]; rfl)
      | (rw [create_fallback_registration_trace]; rfl)
      | (rw [remove_fallback_registration_trace]; rfl)
  case set_alpha_blend b =>
    simp only [step, set_alpha_blend]
    split_ifs
    · rw [reset_registration_trace]
      simp [registration_trace, register_calls, unregister_calls, Layer.call, List.count_append]
    · simp [registration_trace, register_calls, unregister_calls, Layer.call, List.count_append]
  case internal_process =>
    simp only [step, _notification]
    split
    · split_ifs
      · have := reset_registration_trace env
          { (w.layer.call .fallback_set_mesh) with fallback := some { ‹MeshInstance3D› with
              has_mesh := env.fallback_mesh_is_valid } }
        simp only [registration_trace, register_calls, unregister_calls] at this ⊢
        rw [this]
        simp [Layer.call, List.count_append]
      · rfl
    · rfl
  all_goals
    simp only [step, _notification, set_android_surface_size, set_sort_order,
      update_fallback_mesh, set_swapchain_state]
    repeat' split
    all_goals simp [registration_trace, register_calls, unregister_calls,
      provider_set_use_android_surface, Layer.call, List.count_append]

theorem run_registration_trace_no_extension (env : Env)
    (hx : env.composition_layer_extension = false) (tr : List (List Layer × Event)) :
    ∀ w : World, registration_trace (run env w tr).layer = registration_trace w.layer := by
  induction tr with
  | nil => intro w; rfl
  | cons oe rest ih =>
    intro w
    obtain ⟨others, e⟩ := oe
    exact (ih _).trans (step_registration_trace_no_extension env hx others w e)

theorem construct_registration_trace (env : Env) (is_running : Bool) (sz : Size2i)
    (prov : Provider) :
    registration_trace (construct env is_running sz prov) = (false, 0, 0) := by
  unfold construct
  cases env.is_editor_hint <;>
    simp [registration_trace, register_calls, unregister_calls, _create_fallback_node]

/-- Claim C20: with the compositor extension singleton absent, in every state
reachable from construction `registered` is false and no register or unregister
call has been made; the two functions that would use the extension,
`_setup_composition_layer_provider` and `_clear_composition_layer_provider`, log no
error. -/
theorem no_extension_no_registration (env : Env)
    (hx : env.composition_layer_extension = false) (is_running : Bool) (sz : Size2i)
    (prov : Provider) (vps : Viewports) (tr : List (List Layer × Event)) (s : Layer) :
    (run env ⟨construct env is_running sz prov, vps⟩ tr).layer.registered = false ∧
    register_calls (run env ⟨construct env is_running sz prov, vps⟩ tr).layer = 0 ∧
    unregister_calls (run env ⟨construct env is_running sz prov, vps⟩ tr).layer = 0 ∧
    (_setup_composition_layer_provider env vps s).errors = s.errors ∧
    (_clear_composition_layer_provider env s).errors = s.errors := by
  have h := (run_registration_trace_no_extension env hx tr
    ⟨construct env is_running sz prov, vps⟩).trans
    (construct_registration_trace env is_running sz prov)
  simp only [registration_trace, Prod.mk.injEq] at h
  exact ⟨h.1, h.2.1, h.2.2, setup_errors env vps s, clear_errors env s⟩

/-- Claim C20 on a concrete run through session, binding and tree events. -/
theorem no_extension_no_registration_witness :
    (run env_no_extension ⟨construct env_no_extension true (1024, 1024) provider0, viewports0⟩
      [([], .session_begun), ([], .set_layer_viewport (some 1)), ([], .enter_tree),
        ([], .set_visible false), ([], .exit_tree)]).layer.registered = false ∧
    register_calls
      (run env_no_extension ⟨construct env_no_extension true (1024, 1024) provider0, viewports0⟩
        [([], .session_begun), ([], .set_layer_viewport (some 1)), ([], .enter_tree),
          ([], .set_visible false), ([], .exit_tree)]).layer = 0 ∧
    unregister_calls
      (run env_no_extension ⟨construct env_no_extension true (1024, 1024) provider0, viewports0⟩
        [([], .session_begun), ([], .set_layer_viewport (some 1)), ([], .enter_tree),
          ([], .set_visible false), ([], .exit_tree)]).layer = 0 ∧
    (_setup_composition_layer_provider env_no_extension viewports0 layer_holding_1).errors
      = layer_holding_1.errors ∧
    (_clear_composition_layer_provider env_no_extension layer_holding_1).errors
      = layer_holding_1.errors :=
  no_extension_no_registration env_no_extension (by decide) true (1024, 1024) provider0
    viewports0 _ layer_holding_1

/-! ## The property list -/

theorem get_property_list_loop_eq (ext : List PropertyInfo) :
    ∀ out : List PropertyInfo,
      _get_property_list_loop out ext
        = out ++ ext.filter fun pinfo => contains_char pinfo.name '/' := by
  induction ext with
  | nil => intro out; simp [_get_property_list_loop]
  | cons pinfo rest ih =>
    intro out
    unfold _get_property_list_loop
    cases h : contains_char pinfo.name '/'
    · simp [ih, h]
    · simp [ih, h]

theorem foldl_append_eq_join (wrappers : List (List PropertyInfo)) :
    ∀ acc : List PropertyInfo,
      wrappers.foldl (fun acc w => acc ++ w) acc = acc ++ wrappers.flatten := by
  induction wrappers with
  | nil => intro acc; simp
  | cons w rest ih => intro acc; simp [ih]

/-- Claim C21: for every list of descriptors contributed by the extension wrappers,
`_get_property_list` returns the incoming list followed by exactly the contributed
descriptors whose name contains the separator `/`, in their original order; a
descriptor without `/` between two runs of descriptors is left out and the
descriptors after it are still appended. -/
theorem get_property_list_keeps_separated_names (wrappers : List (List PropertyInfo))
    (p_property_list before after : List PropertyInfo) (dropped : PropertyInfo) :
    _get_property_list wrappers p_property_list
      = p_property_list
        ++ wrappers.flatten.filter (fun pinfo => contains_char pinfo.name '/') ∧
    (contains_char dropped.name '/' = false →
      _get_property_list [before ++ [dropped] ++ after] p_property_list
        = p_property_list
          ++ before.filter (fun pinfo => contains_char pinfo.name '/')
          ++ after.filter (fun pinfo => contains_char pinfo.name '/')) := by
  have h : ∀ ws : List (List PropertyInfo), _get_property_list ws p_property_list
      = p_property_list ++ ws.flatten.filter (fun pinfo => contains_char pinfo.name '/') := by
    intro ws
    simp only [_get_property_list, foldl_append_eq_join, List.nil_append,
      get_property_list_loop_eq]
  refine ⟨h wrappers, ?_⟩
  intro hd
  rw [h]
  simp [List.filter_append, hd]

/-- Claim C21 on two descriptors with a separator around one without. -/
theorem get_property_list_keeps_separated_names_witness :
    _get_property_list
        [[property_with_separator] ++ [property_without_separator]
          ++ [property_with_separator_2]] []
      = [] ++ [property_with_separator].filter (fun pinfo => contains_char pinfo.name '/')
        ++ [property_with_separator_2].filter (fun pinfo => contains_char pinfo.name '/') :=
  (get_property_list_keeps_separated_names [] [] [property_with_separator]
    [property_with_separator_2] property_without_separator).2 (by decide)

/-! ## Configuration warnings and the deferred mesh rebuild -/

/-- Claim C23: `get_configuration_warnings` returns the warnings of the base class
followed by the XR-origin warning iff the layer is visible, inside the tree and its
parent is no `XROrigin3D`, then the transform warning iff the basis is not
orthonormal, then the hole-punch warning iff hole punch is enabled and the sort order
is at least zero; nothing else is added. -/
theorem configuration_warnings_exact (s : Layer) (inherited : List String)
    (parent_is_xr_origin basis_is_orthonormal : Bool) :
    get_configuration_warnings s inherited parent_is_xr_origin basis_is_orthonormal =
      inherited.map .inherited
        ++ (if s.visible = true ∧ s.inside_tree = true ∧ parent_is_xr_origin = false
            then [.must_have_xr_origin_parent] else [])
        ++ (if basis_is_orthonormal = false
            then [.must_have_orthonormalized_transform] else [])
        ++ (if s.enable_hole_punch = true ∧ 0 ≤ get_sort_order s
            then [.hole_punch_needs_negative_sort_order] else []) := by
  unfold get_configuration_warnings
  cases s.visible <;> cases s.inside_tree <;> cases parent_is_xr_origin <;>
    cases basis_is_orthonormal <;> cases s.enable_hole_punch <;>
    by_cases h : 0 ≤ get_sort_order s <;> simp [h]

theorem setup_mesh_builds (env : Env) (vps : Viewports) (s : Layer) :
    mesh_builds (_setup_composition_layer_provider env vps s) = mesh_builds s := by
  rw [setup_eq]
  cases hv : s.layer_viewport <;> split_ifs <;>
    simp_all [mesh_builds, List.count_append]

theorem clear_mesh_builds (env : Env) (s : Layer) :
    mesh_builds (_clear_composition_layer_provider env s) = mesh_builds s := by
  rw [clear_eq]
  cases hu : s.use_android_surface <;> cases hx : env.composition_layer_extension <;>
    simp [mesh_builds, hu, hx, List.count_append]

theorem reset_mesh_builds (env : Env) (s : Layer) :
    mesh_builds (_reset_fallback_material env s) = mesh_builds s := by
  simp [mesh_builds]

theorem create_fallback_mesh_builds (s : Layer) :
    mesh_builds (_create_fallback_node s) = mesh_builds s := by
  simp [mesh_builds]

theorem remove_fallback_mesh_builds (s : Layer) :
    mesh_builds (_remove_fallback_node s) = mesh_builds s := by
  simp [mesh_builds]

theorem provider_set_viewport_mesh_builds (s : Layer) (rid : Option ViewportId) (sz : Size2i) :
    mesh_builds (provider_set_viewport s rid sz) = mesh_builds s := by
  simp [mesh_builds, provider_set_viewport, Layer.call, List.count_append]

theorem provider_set_use_android_surface_mesh_builds (s : Layer) (b : Bool) (sz : Size2i) :
    mesh_builds (provider_set_use_android_surface s b sz) = mesh_builds s := by
  simp [mesh_builds, provider_set_use_android_surface, Layer.call, List.count_append]

theorem set_layer_viewport_mesh_builds (env : Env) (others : List Layer) (vps : Viewports)
    (s : Layer) (p : Option ViewportId) :
    mesh_builds (set_layer_viewport env others vps s p).1 = mesh_builds s := by
  unfold set_layer_viewport
  split_ifs
  · rfl
  · rfl
  · rfl
  · simp only []
    split_ifs
    all_goals
      first
      | rfl
      | (rw [reset_mesh_builds, setup_mesh_builds]; rfl)
      | (rw [reset_mesh_builds]; rfl)
      | (split <;> (rw [provider_set_viewport_mesh_builds, setup_mesh_builds]; rfl))
      | (split <;> (rw [provider_set_viewport_mesh_builds]; rfl))
      | (rw [setup_mesh_builds]; rfl)

theorem step_mesh_builds (env : Env) (others : List Layer) (w : World) (e : Event)
    (he : e ≠ .internal_process) :
    mesh_builds (step env others w e).layer = mesh_builds w.layer := by
  cases e
  case internal_process => exact absurd rfl he
  case set_layer_viewport p => exact set_layer_viewport_mesh_builds env others _ _ p
  case set_use_android_surface b =>
    simp only [step, set_use_android_surface]
    split_ifs
    · rfl
    · rw [provider_set_use_android_surface_mesh_builds, set_layer_viewport_mesh_builds]; rfl
    · rw [provider_set_use_android_surface_mesh_builds]; rfl
  case session_begun =>
    simp only [step, _on_openxr_session_begun]
    split_ifs
    all_goals
      first
      | rfl
      | (rw [create_fallback_mesh_builds, setup_mesh_builds]; rfl)
      | (rw [create_fallback_mesh_builds]; rfl)
      | (rw [setup_mesh_builds]; rfl)
  case session_stopping =>
    simp only [step, _on_openxr_session_stopping]
    rw [clear_mesh_builds]
    split_ifs
    · rw [remove_fallback_mesh_builds]; rfl
    · rfl
  case enter_tree =>
    simp only [step, _notification]
    split_ifs
    · rw [clear_mesh_builds]; rfl
    · rw [setup_mesh_builds]; rfl
    · rfl
  case exit_tree =>
    simp only [step, _notification]
    have := clear_mesh_builds env w.layer
    simp only [mesh_builds] at this ⊢
    exact this
  case set_visible v =>
    simp only [step, _notification]
    split_ifs
    · rw [setup_mesh_builds]; rfl
    · rw [clear_mesh_builds]; rfl
    · rfl
  case set_enable_hole_punch b =>
    simp only [step, set_enable_hole_punch]
    split_ifs
    all_goals
      first
      | rfl
      | (rw [reset_mesh_builds]; rfl)
      | (rw [create_fallback_mesh_builds]; rfl)
      | (rw [remove_fallback_mesh_builds]; rfl)
  case set_alpha_blend b =>
    simp only [step, set_alpha_blend]
    split_ifs
    · rw [reset_mesh_builds]
      simp [mesh_builds, Layer.call, List.count_append]
    · simp [mesh_builds, Layer.call, List.count_append]
  all_goals
    simp only [step, _notification, set_android_surface_size, set_sort_order,
      update_fallback_mesh, set_swapchain_state]
    repeat' split
    all_goals simp [mesh_builds, provider_set_use_android_surface, Layer.call,
      List.count_append]

theorem tick_rebuilds (env : Env) (others : List Layer) (w : World)
    (hf : w.layer.fallback.isSome = true) (hu : w.layer.should_update_fallback_mesh = true) :
    mesh_builds (step env others w .internal_process).layer = mesh_builds w.layer + 1 ∧
    (step env others w .internal_process).layer.should_update_fallback_mesh = false := by
  cases hfb : w.layer.fallback with
  | none => simp [hfb] at hf
  | some fb =>
    constructor
    · simp only [step, _notification, hfb, hu, if_true]
      have := reset_mesh_builds env
        { (w.layer.call .fallback_set_mesh) with
          fallback := some { fb with has_mesh := env.fallback_mesh_is_valid } }
      simp only [mesh_builds] at this ⊢
      rw [this]
      simp [Layer.call, List.count_append]
    · simp only [step, _notification, hfb, hu, if_true]

theorem tick_idle (env : Env) (others : List Layer) (w : World)
    (h : ¬ (w.layer.fallback.isSome = true ∧ w.layer.should_update_fallback_mesh = true)) :
    (step env others w .internal_process).layer = w.layer := by
  simp only [step, _notification]
  cases hfb : w.layer.fallback with
  | none => rfl
  | some fb =>
    have : w.layer.should_update_fallback_mesh = false := by
      cases hu : w.layer.should_update_fallback_mesh
      · rfl
      · exact absurd ⟨by simp [hfb], hu⟩ h
    simp [this]

theorem run_append (env : Env) (a b : List (List Layer × Event)) :
    ∀ w : World, run env w (a ++ b) = run env (run env w a) b := by
  induction a with
  | nil => intro w; rfl
  | cons oe rest ih =>
    intro w
    obtain ⟨others, e⟩ := oe
    simp only [List.cons_append, run]
    exact ih _

theorem run_update_fallback_mesh_calls (env : Env) (n : Nat) :
    ∀ w : World, (run env w (update_fallback_mesh_calls (n + 1))).layer
      = update_fallback_mesh w.layer := by
  induction n with
  | zero => intro w; rfl
  | succ n ih =>
    intro w
    have : update_fallback_mesh_calls (n + 1 + 1)
        = ([], Event.update_fallback_mesh) :: update_fallback_mesh_calls (n + 1) := rfl
    rw [this]
    show (run env (step env [] w .update_fallback_mesh)
      (update_fallback_mesh_calls (n + 1))).layer = _
    rw [ih]
    rfl

/-- Claim C24: `update_fallback_mesh` only sets `should_update_fallback_mesh`; no
event other than the internal-process tick sets the fallback mesh; a tick with a
fallback and the flag set sets the mesh once and clears the flag; a tick without a
fallback or without the flag changes nothing; so with a fallback present, one or more
`update_fallback_mesh` calls followed by a tick set the mesh once, and a second tick
sets it no further. -/
theorem mesh_rebuilt_once_per_tick (env : Env) (others : List Layer) (w : World) (e : Event)
    (n : Nat) :
    update_fallback_mesh w.layer = { w.layer with should_update_fallback_mesh := true } ∧
    (e ≠ .internal_process →
      mesh_builds (step env others w e).layer = mesh_builds w.layer) ∧
    (w.layer.fallback.isSome = true → w.layer.should_update_fallback_mesh = true →
      mesh_builds (step env others w .internal_process).layer = mesh_builds w.layer + 1 ∧
      (step env others w .internal_process).layer.should_update_fallback_mesh = false) ∧
    (¬ (w.layer.fallback.isSome = true ∧ w.layer.should_update_fallback_mesh = true) →
      (step env others w .internal_process).layer = w.layer) ∧
    (w.layer.fallback.isSome = true →
      mesh_builds
        (run env w (update_fallback_mesh_calls (n + 1) ++ [(others, .internal_process)])).layer
        = mesh_builds w.layer + 1 ∧
      mesh_builds
        (run env w (update_fallback_mesh_calls (n + 1)
          ++ [(others, .internal_process), (others, .internal_process)])).layer
        = mesh_builds w.layer + 1) := by
  refine ⟨rfl, step_mesh_builds env others w e, tick_rebuilds env others w,
    tick_idle env others w, ?_⟩
  intro hf
  have hl := run_update_fallback_mesh_calls env n w
  have h1 := tick_rebuilds env others (run env w (update_fallback_mesh_calls (n + 1)))
    (by rw [hl]; exact hf) (by rw [hl]; rfl)
  have hb : mesh_builds (run env w (update_fallback_mesh_calls (n + 1))).layer
      = mesh_builds w.layer := by rw [hl]; rfl
  constructor
  · rw [run_append]
    show mesh_builds (step env others (run env w (update_fallback_mesh_calls (n + 1)))
      .internal_process).layer = _
    rw [h1.1, hb]
  · rw [run_append]
    show mesh_builds (step env others
      (step env others (run env w (update_fallback_mesh_calls (n + 1))) .internal_process)
      .internal_process).layer = _
    rw [tick_idle env others _ (by rw [h1.2]; simp), h1.1, hb]

/-- Claim C24 on a layer with a fallback mesh and on a freshly built layer without a
fallback. -/
theorem mesh_rebuilt_once_per_tick_witness :
    mesh_builds
        (step env_unsupported [] ⟨layer_fallback_with_mesh, viewports0⟩
          (.set_enable_hole_punch true)).layer
      = mesh_builds layer_fallback_with_mesh ∧
    (mesh_builds
        (step env_unsupported []
          ⟨update_fallback_mesh layer_fallback_with_mesh, viewports0⟩ .internal_process).layer
        = mesh_builds (update_fallback_mesh layer_fallback_with_mesh) + 1 ∧
      (step env_unsupported []
        ⟨update_fallback_mesh layer_fallback_with_mesh, viewports0⟩
        .internal_process).layer.should_update_fallback_mesh = false) ∧
    (step env_unsupported [] ⟨layer0 env_unsupported, viewports0⟩ .internal_process).layer
      = layer0 env_unsupported ∧
    (mesh_builds
        (run env_unsupported ⟨layer_fallback_with_mesh, viewports0⟩
          (update_fallback_mesh_calls (2 + 1) ++ [([], .internal_process)])).layer
        = mesh_builds layer_fallback_with_mesh + 1 ∧
      mesh_builds
        (run env_unsupported ⟨layer_fallback_with_mesh, viewports0⟩
          (update_fallback_mesh_calls (2 + 1)
            ++ [([], .internal_process), ([], .internal_process)])).layer
        = mesh_builds layer_fallback_with_mesh + 1) :=
  ⟨(mesh_rebuilt_once_per_tick env_unsupported [] ⟨layer_fallback_with_mesh, viewports0⟩
      (.set_enable_hole_punch true) 2).2.1 (by decide),
    (mesh_rebuilt_once_per_tick env_unsupported []
      ⟨update_fallback_mesh layer_fallback_with_mesh, viewports0⟩
      (.set_enable_hole_punch true) 2).2.2.1 (by decide) (by decide),
    (mesh_rebuilt_once_per_tick env_unsupported [] ⟨layer0 env_unsupported, viewports0⟩
      (.set_enable_hole_punch true) 2).2.2.2.1 (by decide),
    (mesh_rebuilt_once_per_tick env_unsupported [] ⟨layer_fallback_with_mesh, viewports0⟩
      (.set_enable_hole_punch true) 2).2.2.2.2 (by decide)⟩

end OpenXRCompositionLayer

/-! ## Guards of the radius and margin setters -/

open OpenXRCompositionLayer (real_t)

theorem sphere_run_radius_not_negative (ops : List real_t) :
    ∀ s : SphereShape3D.Shape, s.radius.lt (.fin 0) = false →
      (SphereShape3D.run s ops).radius.lt (.fin 0) = false := by
  induction ops with
  | nil => intro s h; exact h
  | cons p rest ih =>
    intro s h
    apply ih
    unfold SphereShape3D.set_radius
    cases hp : p.lt (.fin 0) <;> simp [hp, h, SphereShape3D._update_shape]

theorem canvas_group_setter_margins_not_negative (g : CanvasGroup.Group)
    (c : CanvasGroup.Setter)
    (h : g.fit_margin.lt (.fin 0) = false ∧ g.clear_margin.lt (.fin 0) = false) :
    (c.apply g).fit_margin.lt (.fin 0) = false ∧
      (c.apply g).clear_margin.lt (.fin 0) = false := by
  cases c with
  | fit_margin p =>
    simp only [CanvasGroup.Setter.apply, CanvasGroup.set_fit_margin]
    cases hp : p.lt (.fin 0) <;> simp [hp, h, CanvasGroup.update_canvas_group_mode]
  | clear_margin p =>
    simp only [CanvasGroup.Setter.apply, CanvasGroup.set_clear_margin]
    cases hp : p.lt (.fin 0) <;> simp [hp, h, CanvasGroup.update_canvas_group_mode]
  | use_mipmaps b =>
    simpa [CanvasGroup.Setter.apply, CanvasGroup.set_use_mipmaps,
      CanvasGroup.update_canvas_group_mode] using h

theorem canvas_group_run_margins_not_negative (ops : List CanvasGroup.Setter) :
    ∀ g : CanvasGroup.Group,
      g.fit_margin.lt (.fin 0) = false ∧ g.clear_margin.lt (.fin 0) = false →
      (CanvasGroup.run g ops).fit_margin.lt (.fin 0) = false ∧
        (CanvasGroup.run g ops).clear_margin.lt (.fin 0) = false := by
  induction ops with
  | nil => intro g h; exact h
  | cons c rest ih =>
    intro g h
    exact ih _ (canvas_group_setter_margins_not_negative g c h)

/-- Claim C22: `SphereShape3D::set_radius`, `CanvasGroup::set_fit_margin` and
`CanvasGroup::set_clear_margin` called with an argument below zero only log an error:
the stored value and the trace of server updates are unchanged.  Called with an
argument that is not below zero, the matching getter returns the argument afterwards.
After construction and any sequence of setter calls the stored radius is not below
zero, and neither are the two margins when the margin the constructor does not set
started not below zero. -/
theorem negative_radius_and_margins_rejected (s : SphereShape3D.Shape) (g : CanvasGroup.Group)
    (p radius0 fit_margin0 clear_margin0 : real_t) (use_mipmaps0 : Bool)
    (radius_calls : List real_t) (setter_calls : List CanvasGroup.Setter) :
    (p.lt (.fin 0) = true →
      SphereShape3D.set_radius s p = { s with errors := s.errors + 1 } ∧
      CanvasGroup.set_fit_margin g p = { g with errors := g.errors + 1 } ∧
      CanvasGroup.set_clear_margin g p = { g with errors := g.errors + 1 }) ∧
    (p.lt (.fin 0) = false →
      SphereShape3D.get_radius (SphereShape3D.set_radius s p) = p ∧
      CanvasGroup.get_fit_margin (CanvasGroup.set_fit_margin g p) = p ∧
      CanvasGroup.get_clear_margin (CanvasGroup.set_clear_margin g p) = p) ∧
    (SphereShape3D.run (SphereShape3D.construct radius0) radius_calls).radius.lt (.fin 0)
      = false ∧
    (clear_margin0.lt (.fin 0) = false →
      (CanvasGroup.run (CanvasGroup.construct fit_margin0 clear_margin0 use_mipmaps0)
        setter_calls).fit_margin.lt (.fin 0) = false ∧
      (CanvasGroup.run (CanvasGroup.construct fit_margin0 clear_margin0 use_mipmaps0)
        setter_calls).clear_margin.lt (.fin 0) = false) := by
  refine ⟨?_, ?_, ?_, ?_⟩
  · intro hp
    simp [SphereShape3D.set_radius, CanvasGroup.set_fit_margin, CanvasGroup.set_clear_margin, hp]
  · intro hp
    simp [SphereShape3D.set_radius, CanvasGroup.set_fit_margin, CanvasGroup.set_clear_margin, hp,
      SphereShape3D.get_radius, CanvasGroup.get_fit_margin, CanvasGroup.get_clear_margin,
      SphereShape3D._update_shape, CanvasGroup.update_canvas_group_mode]
  · apply sphere_run_radius_not_negative
    have h0 : (real_t.fin (1 / 2)).lt (.fin 0) = false := by
      simp only [real_t.lt, decide_eq_false_iff_not]
      norm_num
    simp only [SphereShape3D.construct, SphereShape3D.set_radius, h0, SphereShape3D._update_shape]
    exact h0
  · intro hc
    apply canvas_group_run_margins_not_negative
    have h0 : (real_t.fin 10).lt (.fin 0) = false := by decide
    simp [CanvasGroup.construct, CanvasGroup.set_fit_margin, h0,
      CanvasGroup.update_canvas_group_mode, hc]


/-- Claim C22 on the arguments -1 and 2 and on a run of margin setters that includes
NaN and the negative zero. -/
theorem negative_radius_and_margins_rejected_witness :
    SphereShape3D.set_radius (SphereShape3D.construct (.fin 0)) (.fin (-1))
      = { SphereShape3D.construct (.fin 0) with
          errors := (SphereShape3D.construct (.fin 0)).errors + 1 } ∧
    CanvasGroup.get_clear_margin
      (CanvasGroup.set_clear_margin (CanvasGroup.construct (.fin 0) (.fin 10) false) (.fin 2))
      = .fin 2 ∧
    (CanvasGroup.run (CanvasGroup.construct (.fin 0) (.fin 10) false)
      [.fit_margin (.fin (-1)), .clear_margin (.fin 3), .clear_margin .nan,
        .fit_margin .neg_zero]).fit_margin.lt (.fin 0) = false :=
  ⟨((negative_radius_and_margins_rejected (SphereShape3D.construct (.fin 0))
      (CanvasGroup.construct (.fin 0) (.fin 10) false) (.fin (-1)) (.fin 0) (.fin 0) (.fin 10)
      false [] []).1 (by decide)).1,
    ((negative_radius_and_margins_rejected (SphereShape3D.construct (.fin 0))
      (CanvasGroup.construct (.fin 0) (.fin 10) false) (.fin 2) (.fin 0) (.fin 0) (.fin 10)
      false [] []).2.1 (by decide)).2.2,
    ((negative_radius_and_margins_rejected (SphereShape3D.construct (.fin 0))
      (CanvasGroup.construct (.fin 0) (.fin 10) false) (.fin 2) (.fin 0) (.fin 0) (.fin 10)
      false []
      [.fit_margin (.fin (-1)), .clear_margin (.fin 3), .clear_margin .nan,
        .fit_margin .neg_zero]).2.2.2 (by decide)).1⟩

namespace CanvasGroup

/-! ## Ancestor warnings of a canvas group -/

theorem warnings_loop_append (ancestors : List Ancestor) :
    ∀ (wc wg : Bool) (ws : List Warning),
      warnings_loop wc wg ws ancestors = ws ++ warnings_loop wc wg [] ancestors := by
  induction ancestors with
  | nil => intro wc wg ws; simp [warnings_loop]
  | cons n parents ih =>
    intro wc wg ws
    unfold warnings_loop
    rcases Bool.eq_false_or_eq_true n.as_canvas_item with h1 | h1 <;>
      rcases Bool.eq_false_or_eq_true n.as_canvas_group with h2 | h2 <;>
      rcases Bool.eq_false_or_eq_true
        (n.clip_children_mode != ClipChildrenMode.CLIP_CHILDREN_DISABLED) with h3 | h3 <;>
      cases wc <;> cases wg <;> simp [h1, h2, h3] <;>
      first
        | exact ih _ _ ws
        | (rw [ih _ _ (ws ++ _), ih _ _ [_]]; simp)

theorem nearest_clipping_cons (n : Ancestor) (parents : List Ancestor) :
    nearest_clipping (n :: parents)
      = if n.clips then [Warning.ancestor_clips n.name] else nearest_clipping parents := by
  cases h : n.clips <;> simp [nearest_clipping, List.find?, h]

theorem nearest_canvas_group_cons (n : Ancestor) (parents : List Ancestor) :
    nearest_canvas_group (n :: parents)
      = if n.as_canvas_group then [Warning.ancestor_is_canvas_group n.name]
        else nearest_canvas_group parents := by
  cases h : n.as_canvas_group <;> simp [nearest_canvas_group, List.find?, h]

theorem warnings_loop_cons (wc wg : Bool) (n : Ancestor) (parents : List Ancestor) :
    warnings_loop wc wg [] (n :: parents)
      = (if (!wc && n.clips) then [Warning.ancestor_clips n.name] else [])
        ++ (if (!wg && n.as_canvas_group) then [Warning.ancestor_is_canvas_group n.name] else [])
        ++ (if (wc || n.clips) && (wg || n.as_canvas_group) then []
            else warnings_loop (wc || n.clips) (wg || n.as_canvas_group) [] parents) := by
  conv_lhs => unfold warnings_loop
  simp only [Ancestor.clips]
  rcases Bool.eq_false_or_eq_true n.as_canvas_item with h1 | h1 <;>
    rcases Bool.eq_false_or_eq_true n.as_canvas_group with h2 | h2 <;>
    rcases Bool.eq_false_or_eq_true
      (n.clip_children_mode != ClipChildrenMode.CLIP_CHILDREN_DISABLED) with h3 | h3 <;>
    cases wc <;> cases wg <;> simp [h1, h2, h3] <;>
    first
      | (rw [warnings_loop_append parents _ _ (_ :: _)]; simp)

theorem warnings_loop_clipping (ancestors : List Ancestor) :
    ∀ wc wg : Bool,
      (warnings_loop wc wg [] ancestors).filter Warning.is_clipping
        = if wc then [] else nearest_clipping ancestors := by
  induction ancestors with
  | nil => intro wc wg; cases wc <;> simp [warnings_loop, nearest_clipping]
  | cons n parents ih =>
    intro wc wg
    rw [warnings_loop_cons, nearest_clipping_cons]
    rcases Bool.eq_false_or_eq_true n.clips with h1 | h1 <;>
      rcases Bool.eq_false_or_eq_true n.as_canvas_group with h2 | h2 <;>
      cases wc <;> cases wg <;> simp [ih, h1, h2, List.filter_append, Warning.is_clipping]

theorem warnings_loop_canvas_group (ancestors : List Ancestor) :
    ∀ wc wg : Bool,
      (warnings_loop wc wg [] ancestors).filter Warning.is_canvas_group
        = if wg then [] else nearest_canvas_group ancestors := by
  induction ancestors with
  | nil => intro wc wg; cases wg <;> simp [warnings_loop, nearest_canvas_group]
  | cons n parents ih =>
    intro wc wg
    rw [warnings_loop_cons, nearest_canvas_group_cons]
    rcases Bool.eq_false_or_eq_true n.clips with h1 | h1 <;>
      rcases Bool.eq_false_or_eq_true n.as_canvas_group with h2 | h2 <;>
      cases wc <;> cases wg <;> simp [ih, h1, h2, List.filter_append, Warning.is_canvas_group]

theorem warnings_loop_kinds (ancestors : List Ancestor) :
    ∀ (wc wg : Bool), ∀ x ∈ warnings_loop wc wg [] ancestors,
      x.is_clipping = true ∨ x.is_canvas_group = true := by
  induction ancestors with
  | nil => intro wc wg x hx; simp [warnings_loop] at hx
  | cons n parents ih =>
    intro wc wg x hx
    rw [warnings_loop_cons] at hx
    simp only [List.mem_append] at hx
    rcases hx with (hx | hx) | hx
    · split_ifs at hx
      · simp at hx; subst hx; exact Or.inl rfl
      · simp at hx
    · split_ifs at hx
      · simp at hx; subst hx; exact Or.inr rfl
      · simp at hx
    · split_ifs at hx
      · simp at hx
      · exact ih _ _ x hx

theorem nearest_clipping_length (ancestors : List Ancestor) :
    (nearest_clipping ancestors).length ≤ 1 := by
  unfold nearest_clipping; split <;> simp

theorem nearest_canvas_group_length (ancestors : List Ancestor) :
    (nearest_canvas_group ancestors).length ≤ 1 := by
  unfold nearest_canvas_group; split <;> simp

theorem length_of_two_kinds (l : List Warning)
    (h : ∀ x ∈ l, x.is_clipping = true ∨ x.is_canvas_group = true) :
    l.length = (l.filter Warning.is_clipping).length
      + (l.filter Warning.is_canvas_group).length := by
  induction l with
  | nil => rfl
  | cons x rest ih =>
    have ih2 := ih (fun y hy => h y (List.mem_cons_of_mem _ hy))
    cases x <;> simp_all [Warning.is_clipping, Warning.is_canvas_group, List.filter_cons] <;> omega

/-- Claim C25: outside the tree `CanvasGroup::get_configuration_warnings` returns the
warnings of the base class alone.  Inside the tree, for every ancestor chain, it
returns them followed by at most two entries, each a clipping or a canvas-group
warning: the clipping warnings among them are the single warning that names the
nearest ancestor that is a `CanvasItem` with clip-children enabled, or none when no
ancestor is one; the canvas-group warnings are the single warning that names the
nearest `CanvasGroup` ancestor, or none when no ancestor is one. -/
theorem canvas_group_warnings_name_nearest_ancestors (inherited : List String) (ancestors : List Ancestor) :
    get_configuration_warnings false inherited ancestors = inherited.map .inherited ∧
    ∃ added : List Warning,
      get_configuration_warnings true inherited ancestors = inherited.map .inherited ++ added ∧
      added.length ≤ 2 ∧
      added.filter Warning.is_clipping = nearest_clipping ancestors ∧
      added.filter Warning.is_canvas_group = nearest_canvas_group ancestors ∧
      ∀ x ∈ added, x.is_clipping = true ∨ x.is_canvas_group = true := by
  refine ⟨rfl, warnings_loop false false [] ancestors, ?_, ?_, ?_, ?_, ?_⟩
  · simp only [get_configuration_warnings, if_true]
    exact warnings_loop_append ancestors _ _ _
  · rw [length_of_two_kinds _ (warnings_loop_kinds ancestors false false),
      warnings_loop_clipping, warnings_loop_canvas_group]
    have := nearest_clipping_length ancestors
    have := nearest_canvas_group_length ancestors
    simp only [Bool.false_eq_true, if_false]
    omega
  · simpa using warnings_loop_clipping ancestors false false
  · simpa using warnings_loop_canvas_group ancestors false false
  · exact warnings_loop_kinds ancestors false false

end CanvasGroup
